import Mathlib

/-!
Verification of the instruction-decoding core of the rust-x86asm repository
(src/src/decoding.rs), shallowly embedded in Lean 4.

The byte source (a peekable iterator of Result<u8, Error>) is modelled as a
list of items, each either a byte or an upstream read failure.  Stateful
decoding code is modelled as explicit state passing: a computation of type
DecM alpha maps the input stream to a result (ok / decoding error / panic)
together with the remaining stream.  Rust panics (panic!, unimplemented!,
unreachable!, Option::unwrap on None) are modelled by the RunResult.panic
outcome, which is distinct from the five InstructionDecodingError values.

Machine integers (u8, u16, u32, u64) are modelled as Nat; the source's
bit operations (&, |, >>, <<) become Nat.land / Nat.lor / shifts, and casts
that can truncate become explicit `% 2 ^ w`.

Components of the repository that are outside src/src/decoding.rs (the
instruction-definition catalogue, the register conversion tables, the
instruction buffer declarations) are modelled from the spec where needed;
each such definition carries a doc comment starting `Modelled from the
spec:`.
-/

/-- One item produced by the underlying byte source: a byte (0..255 in the
    Rust source; modelled as Nat) or an upstream read failure. -/
inductive ByteItem where
  | byte (b : Nat)
  | readFail
deriving DecidableEq, Repr

/-- The byte stream feeding the decoder. -/
abbrev ByteStream := List ByteItem

/-- The five terminal error kinds of decoding.rs (enum InstructionDecodingError). -/
inductive InstructionDecodingError where
  | EndOfStream
  | PartialInstruction
  | ReadError
  | InvalidInstruction
  | UnknownOpcode
deriving DecidableEq, Repr

/-- Outcome of running a decoding computation: a value, one of the five
    decoding errors, or a Rust panic (unimplemented!/unreachable!/unwrap). -/
inductive RunResult (α : Type) where
  | ok (a : α)
  | err (e : InstructionDecodingError)
  | panicked
deriving DecidableEq, Repr

/-- A stateful decoding computation over the byte stream. -/
def DecM (α : Type) : Type := ByteStream → RunResult α × ByteStream

def DecM.pure {α : Type} (a : α) : DecM α := fun s => (RunResult.ok a, s)

def DecM.bind {α β : Type} (m : DecM α) (f : α → DecM β) : DecM β := fun s =>
  match m s with
  | (RunResult.ok a, s') => f a s'
  | (RunResult.err e, s') => (RunResult.err e, s')
  | (RunResult.panicked, s') => (RunResult.panicked, s')

instance : Monad DecM where
  pure := DecM.pure
  bind := DecM.bind

@[simp] theorem DecM.monad_pure_eq {α : Type} (a : α) :
    (Pure.pure a : DecM α) = DecM.pure a := rfl

@[simp] theorem DecM.monad_bind_eq {α β : Type} (m : DecM α) (f : α → DecM β) :
    (Bind.bind m f : DecM β) = DecM.bind m f := rfl

/-- Return a decoding error (Rust: return Err(e) / the ? operator). -/
def DecM.throw {α : Type} (e : InstructionDecodingError) : DecM α :=
  fun s => (RunResult.err e, s)

/-- A Rust panic (panic!, unimplemented!, unreachable!). -/
def DecM.panicOp {α : Type} : DecM α := fun s => (RunResult.panicked, s)

/-- Rust Option::ok_or(e)? . -/
def DecM.ofOption {α : Type} (e : InstructionDecodingError) : Option α → DecM α
  | some a => DecM.pure a
  | none => DecM.throw e

/-- Rust Option::unwrap(): the value, or a panic on None. -/
def DecM.unwrapOrPanic {α : Type} : Option α → DecM α
  | some a => DecM.pure a
  | none => DecM.panicOp

/-- fn expect_byte (decoding.rs lines 22-28): next item of the stream;
    PartialInstruction when the stream is exhausted, ReadError when the
    source reports an error. -/
def expect_byte : DecM Nat := fun s =>
  match s with
  | [] => (RunResult.err InstructionDecodingError.PartialInstruction, [])
  | ByteItem.readFail :: rest => (RunResult.err InstructionDecodingError.ReadError, rest)
  | ByteItem.byte b :: rest => (RunResult.ok b, rest)

/-- enum Mode (Real / Protected / Long). -/
inductive Mode where
  | Real
  | Protected
  | Long
deriving DecidableEq, Repr

/-- enum OperandSize (the variants used by decoding.rs). -/
inductive OperandSize where
  | Unsized
  | Byte
  | Word
  | Dword
  | Qword
deriving DecidableEq, Repr

/-- Modelled from the spec: Mode::from_size is declared outside src
    (lib.rs); per the mode/size tables of spec sections 3 and 4.4, a 16-bit
    size selects Real, 32-bit Protected, 64-bit Long. -/
def Mode.from_size : OperandSize → Option Mode
  | OperandSize.Word => some Mode.Real
  | OperandSize.Dword => some Mode.Protected
  | OperandSize.Qword => some Mode.Long
  | _ => none

/-- enum Prefix1 of the instruction buffer. -/
inductive Prefix1 where
  | Lock
  | RepNE
  | Rep
deriving DecidableEq, Repr

/-- enum Prefix2 of the instruction buffer. -/
inductive Prefix2 where
  | CS
  | SS
  | DS
  | ES
  | FS
  | GS
  | BranchNotTaken
  | BranchTaken
deriving DecidableEq, Repr

/-- enum CompositePrefix: at most one of REX / VEX / EVEX. -/
inductive CompositePrefix where
  | Rex
  | Vex
  | Evex
deriving DecidableEq, Repr

/-- enum MergeMode (EVEX z bit). -/
inductive MergeMode where
  | Merge
  | Zero
deriving DecidableEq, Repr

/-- enum SegmentReg. -/
inductive SegmentReg where
  | CS
  | SS
  | DS
  | ES
  | FS
  | GS
deriving DecidableEq, Repr

/-- enum RegScale (SIB scale factors 1/2/4/8). -/
inductive RegScale where
  | One
  | Two
  | Four
  | Eight
deriving DecidableEq, Repr

/-- Modelled from the spec: RegScale::from_sib_code lives outside src;
    spec section 4.4 gives the SIB scale encoding 00=1, 01=2, 10=4, 11=8. -/
def RegScale.from_sib_code : Nat → Option RegScale
  | 0 => some RegScale.One
  | 1 => some RegScale.Two
  | 2 => some RegScale.Four
  | 3 => some RegScale.Eight
  | _ => none

/-- enum Reg: the registers needed by the decoding paths under
    verification (general-purpose 16/32/64-bit forms, x87 stack and mask
    registers).  The full enumeration lives outside src. -/
inductive Reg where
  | AX | CX | DX | BX | SP | BP | SI | DI
  | R8W | R9W | R10W | R11W | R12W | R13W | R14W | R15W
  | EAX | ECX | EDX | EBX | ESP | EBP | ESI | EDI
  | R8D | R9D | R10D | R11D | R12D | R13D | R14D | R15D
  | RAX | RCX | RDX | RBX | RSP | RBP | RSI | RDI
  | R8 | R9 | R10 | R11 | R12 | R13 | R14 | R15
  | K0 | K1 | K2 | K3 | K4 | K5 | K6 | K7
deriving DecidableEq, Repr

/-- Modelled from the spec: register conversion tables are external
    collaborators (spec section 1); code 0..15 enumerates the 16-bit
    general registers in encoding order. -/
def reg_table_16 : List Reg :=
  [Reg.AX, Reg.CX, Reg.DX, Reg.BX, Reg.SP, Reg.BP, Reg.SI, Reg.DI,
   Reg.R8W, Reg.R9W, Reg.R10W, Reg.R11W, Reg.R12W, Reg.R13W, Reg.R14W, Reg.R15W]

/-- Modelled from the spec: 32-bit general registers in encoding order. -/
def reg_table_32 : List Reg :=
  [Reg.EAX, Reg.ECX, Reg.EDX, Reg.EBX, Reg.ESP, Reg.EBP, Reg.ESI, Reg.EDI,
   Reg.R8D, Reg.R9D, Reg.R10D, Reg.R11D, Reg.R12D, Reg.R13D, Reg.R14D, Reg.R15D]

/-- Modelled from the spec: 64-bit general registers in encoding order. -/
def reg_table_64 : List Reg :=
  [Reg.RAX, Reg.RCX, Reg.RDX, Reg.RBX, Reg.RSP, Reg.RBP, Reg.RSI, Reg.RDI,
   Reg.R8, Reg.R9, Reg.R10, Reg.R11, Reg.R12, Reg.R13, Reg.R14, Reg.R15]

/-- Modelled from the spec: Reg::from_code_general_sized is external
    (spec section 1); it maps a (possibly prefix-extended) register code to
    the general register of the requested size. -/
def Reg.from_code_general_sized (code : Nat) (_has_rex : Bool) (size : OperandSize) : Option Reg :=
  match size with
  | OperandSize.Word => reg_table_16.get? code
  | OperandSize.Dword => reg_table_32.get? code
  | OperandSize.Qword => reg_table_64.get? code
  | _ => none

/-- enum RegType (the operand-type discriminator for register slots). -/
inductive RegType where
  | General
  | Avx
  | Mask
deriving DecidableEq, Repr

/-- Modelled from the spec: Reg::from_code_reg_type is external (spec
    section 1); it maps a register code to a register of the slot's type
    and size (mask registers are K0..K7). -/
def Reg.from_code_reg_type (code : Nat) (reg_type : RegType) (size : OperandSize) : Option Reg :=
  match reg_type with
  | RegType.General => Reg.from_code_general_sized code false size
  | RegType.Mask =>
      [Reg.K0, Reg.K1, Reg.K2, Reg.K3, Reg.K4, Reg.K5, Reg.K6, Reg.K7].get? code
  | RegType.Avx => none

/-- The decoding scratch buffer (struct InstructionBuffer).
    Modelled from the spec: instruction_buffer.rs is outside src; the field
    list follows spec section 3 "Decoding buffer". -/
structure InstructionBuffer where
  prefix1 : Option Prefix1 := none
  prefix2 : Option Prefix2 := none
  operand_size_prefix : Bool := false
  address_size_prefix : Bool := false
  is_two_byte_opcode : Bool := false
  composite_prefix : Option CompositePrefix := none
  fixed_prefix : Option Nat := none
  primary_opcode : Nat := 0
  secondary_opcode : Option Nat := none
  mod_rm_mod : Option Nat := none
  mod_rm_reg : Option Nat := none
  mod_rm_rm : Option Nat := none
  sib_scale : Option Nat := none
  sib_index : Option Nat := none
  sib_base : Option Nat := none
  vex_operand : Option Nat := none
  vex_l : Option Bool := none
  vex_e : Option Bool := none
  vex_b : Option Bool := none
  operand_size_64 : Bool := false
  merge_mode : Option MergeMode := none
  mask_reg : Option Nat := none
deriving DecidableEq, Repr

/-- The empty buffer (Rust Default::default()). -/
def InstructionBuffer.init : InstructionBuffer := {}

/-- Modelled from the spec: InstructionBuffer::get_segment_reg is outside
    src; spec section 4.4 records the segment override chosen by prefix2 on
    the operand. -/
def InstructionBuffer.get_segment_reg (buffer : InstructionBuffer) : Option SegmentReg :=
  match buffer.prefix2 with
  | some Prefix2.CS => some SegmentReg.CS
  | some Prefix2.SS => some SegmentReg.SS
  | some Prefix2.DS => some SegmentReg.DS
  | some Prefix2.ES => some SegmentReg.ES
  | some Prefix2.FS => some SegmentReg.FS
  | some Prefix2.GS => some SegmentReg.GS
  | _ => none

/-- Modelled from the spec: the prefix byte constants of
    instruction_buffer.rs, per the classification table of spec section 4.2. -/
def PREFIX_LOCK : Nat := 0xF0
def PREFIX_REPNE : Nat := 0xF2
def PREFIX_REP : Nat := 0xF3
def PREFIX_OP_SIZE : Nat := 0x66
def PREFIX_ADDR_SIZE : Nat := 0x67
def PREFIX_CS : Nat := 0x2E
def PREFIX_SS : Nat := 0x36
def PREFIX_DS : Nat := 0x3E
def PREFIX_ES : Nat := 0x26
def PREFIX_FS : Nat := 0x64
def PREFIX_GS : Nat := 0x65
def PREFIX_BRANCH_NOT_TAKEN : Nat := 0x2E
def PREFIX_BRANCH_TAKEN : Nat := 0x3E
def PREFIX_TWO_BYTE_OPCODE : Nat := 0x0F
def PREFIX_VEX2 : Nat := 0xC5
def PREFIX_VEX3 : Nat := 0xC4
def PREFIX_EVEX : Nat := 0x62

/-- The local mutable state of read's prefix loop (decoding.rs lines
    39-44): the buffer plus the pending extension bits and the opcode byte
    slot. -/
structure PrefixState where
  buffer : InstructionBuffer := {}
  reg_ext : Nat := 0
  index_ext : Nat := 0
  b_ext : Nat := 0
  v_ext : Nat := 0
deriving DecidableEq, Repr

/-- The state at entry of the prefix loop. -/
def PrefixState.init : PrefixState := {}

/-- The VEX2 arm of the prefix loop (decoding.rs lines 69-81), applied to
    the follow-on byte `data`. -/
def vex2_update (mode : Mode) (st : PrefixState) (data : Nat) : PrefixState :=
  let buffer := st.buffer
  let buffer := { buffer with composite_prefix := some CompositePrefix.Vex }
  let reg_ext := if data &&& 0x80 ≠ 0 ∨ mode ≠ Mode.Long then 0 else 0x8
  let buffer := { buffer with
    vex_operand := some ((data >>> 3) &&& 0xF),
    vex_l := some (decide (data &&& 0x2 ≠ 0)) }
  let buffer :=
    match data &&& 0x3 with
    | 0x1 => { buffer with operand_size_prefix := true }
    | 0x2 => { buffer with fixed_prefix := some 0xF3 }
    | 0x3 => { buffer with fixed_prefix := some 0xF2 }
    | _ => buffer
  { st with buffer := buffer, reg_ext := reg_ext }

/-- The field updates of the VEX3 arm that follow the map_select check
    (decoding.rs lines 86-88 and 96-104): the R/X/B extension bits from
    data1 and the W/vvvv/L/pp fields from data2, applied to the buffer
    chosen by the map_select dispatch. -/
def vex3_finish (mode : Mode) (st : PrefixState) (data1 data2 : Nat)
    (buffer : InstructionBuffer) : PrefixState :=
  let reg_ext := if data1 &&& 0x80 ≠ 0 ∨ mode ≠ Mode.Long then 0 else 0x8
  let index_ext := if data1 &&& 0x40 ≠ 0 ∨ mode ≠ Mode.Long then 0 else 0x8
  let b_ext := if data1 &&& 0x20 ≠ 0 ∨ mode ≠ Mode.Long then 0 else 0x8
  let buffer := { buffer with
    vex_e := some (decide (data2 &&& 0x80 ≠ 0)),
    vex_operand := some ((data2 >>> 3) &&& 0xF),
    vex_l := some (decide (data2 &&& 0x2 ≠ 0)) }
  let buffer :=
    match data2 &&& 0x3 with
    | 0x1 => { buffer with operand_size_prefix := true }
    | 0x2 => { buffer with fixed_prefix := some 0xF3 }
    | 0x3 => { buffer with fixed_prefix := some 0xF2 }
    | _ => buffer
  { st with buffer := buffer, reg_ext := reg_ext, index_ext := index_ext, b_ext := b_ext }

/-- The VEX3 arm of the prefix loop (decoding.rs lines 82-105), applied to
    the two follow-on bytes; an out-of-range map_select (decoding.rs line
    94) yields InvalidInstruction. -/
def vex3_update (mode : Mode) (st : PrefixState) (data1 data2 : Nat) :
    Except InstructionDecodingError PrefixState :=
  let buffer := { st.buffer with composite_prefix := some CompositePrefix.Vex }
  match data1 &&& 0x1F with
  | 0 => Except.ok (vex3_finish mode st data1 data2 buffer)
  | 1 => Except.ok (vex3_finish mode st data1 data2 { buffer with is_two_byte_opcode := true })
  | 2 => Except.ok (vex3_finish mode st data1 data2
      { buffer with is_two_byte_opcode := true, primary_opcode := 0x38 })
  | 3 => Except.ok (vex3_finish mode st data1 data2
      { buffer with is_two_byte_opcode := true, primary_opcode := 0x3A })
  | _ => Except.error InstructionDecodingError.InvalidInstruction

/-- The field updates of the EVEX arm around the map_select check
    (decoding.rs lines 111-114 and 122-135).  Note the source takes
    map_select from only the low two bits of data1, so the invalid-map arm
    of evex_update is unreachable. -/
def evex_finish (mode : Mode) (st : PrefixState) (data1 data2 data3 : Nat)
    (buffer : InstructionBuffer) : PrefixState :=
  let reg_ext := st.reg_ext ||| (if data1 &&& 0x80 ≠ 0 ∧ mode = Mode.Long then 0x8 else 0)
  let index_ext := st.index_ext ||| (if data1 &&& 0x40 ≠ 0 ∧ mode = Mode.Long then 0x8 else 0)
  let b_ext := st.b_ext ||| (if data1 &&& 0x20 ≠ 0 ∧ mode = Mode.Long then 0x8 else 0)
  let reg_ext := reg_ext ||| (if data1 &&& 0x10 ≠ 0 ∧ mode = Mode.Long then 0x10 else 0)
  let buffer := { buffer with
    vex_e := some (decide (data2 &&& 0x80 ≠ 0)),
    vex_operand := some ((data2 >>> 3) &&& 0xF) }
  let buffer :=
    match data2 &&& 0x3 with
    | 0x1 => { buffer with operand_size_prefix := true }
    | 0x2 => { buffer with fixed_prefix := some 0xF3 }
    | 0x3 => { buffer with fixed_prefix := some 0xF2 }
    | _ => buffer
  let buffer := { buffer with
    merge_mode := some (if data3 &&& 0x80 ≠ 0 then MergeMode.Zero else MergeMode.Merge),
    vex_l := some (decide (data3 &&& 0x40 ≠ 0)),
    operand_size_64 := decide (data3 &&& 0x20 ≠ 0),
    vex_b := some (decide (data3 &&& 0x10 ≠ 0)),
    mask_reg := some (data3 &&& 0x7) }
  let v_ext := if data3 &&& 0x8 ≠ 0 then 0x10 else 0x0
  { st with buffer := buffer, reg_ext := reg_ext, index_ext := index_ext,
            b_ext := b_ext, v_ext := v_ext }

/-- The EVEX arm of the prefix loop (decoding.rs lines 106-136), applied
    to the three follow-on bytes. -/
def evex_update (mode : Mode) (st : PrefixState) (data1 data2 data3 : Nat) :
    Except InstructionDecodingError PrefixState :=
  let buffer := { st.buffer with composite_prefix := some CompositePrefix.Evex }
  match data1 &&& 0x3 with
  | 0 => Except.ok (evex_finish mode st data1 data2 data3 buffer)
  | 1 => Except.ok (evex_finish mode st data1 data2 data3
      { buffer with is_two_byte_opcode := true })
  | 2 => Except.ok (evex_finish mode st data1 data2 data3
      { buffer with is_two_byte_opcode := true, primary_opcode := 0x38 })
  | 3 => Except.ok (evex_finish mode st data1 data2 data3
      { buffer with is_two_byte_opcode := true, primary_opcode := 0x3A })
  | _ => Except.error InstructionDecodingError.InvalidInstruction

/-- The REX arm of the prefix loop (decoding.rs lines 137-143). -/
def rex_update (st : PrefixState) (b : Nat) : PrefixState :=
  { st with
    buffer := { st.buffer with
      composite_prefix := some CompositePrefix.Rex,
      operand_size_64 := decide (b &&& 0x8 ≠ 0) },
    reg_ext := st.reg_ext ||| (if b &&& 0x4 ≠ 0 then 0x8 else 0),
    index_ext := st.index_ext ||| (if b &&& 0x2 ≠ 0 then 0x8 else 0),
    b_ext := st.b_ext ||| (if b &&& 0x1 ≠ 0 then 0x8 else 0) }

/-- The prefix loop of read (decoding.rs lines 52-146).  It consumes
    prefix bytes (with their VEX/EVEX payload bytes) until the first
    non-prefix byte, which it returns as the opcode byte. -/
def read_prefixes (mode : Mode) (st : PrefixState) (s : ByteStream) :
    RunResult (PrefixState × Nat) × ByteStream :=
  match s with
  | [] => (RunResult.err InstructionDecodingError.PartialInstruction, [])
  | ByteItem.readFail :: rest => (RunResult.err InstructionDecodingError.ReadError, rest)
  | ByteItem.byte b :: rest =>
    if b = PREFIX_LOCK then
      read_prefixes mode { st with buffer := { st.buffer with prefix1 := some Prefix1.Lock } } rest
    else if b = PREFIX_REPNE then
      read_prefixes mode { st with buffer := { st.buffer with prefix1 := some Prefix1.RepNE } } rest
    else if b = PREFIX_REP then
      read_prefixes mode { st with buffer := { st.buffer with prefix1 := some Prefix1.Rep } } rest
    else if b = PREFIX_OP_SIZE then
      read_prefixes mode { st with buffer := { st.buffer with operand_size_prefix := true } } rest
    else if b = PREFIX_ADDR_SIZE then
      read_prefixes mode { st with buffer := { st.buffer with address_size_prefix := true } } rest
    else if b = PREFIX_CS then
      read_prefixes mode { st with buffer := { st.buffer with prefix2 := some Prefix2.CS } } rest
    else if b = PREFIX_SS then
      read_prefixes mode { st with buffer := { st.buffer with prefix2 := some Prefix2.SS } } rest
    else if b = PREFIX_DS then
      read_prefixes mode { st with buffer := { st.buffer with prefix2 := some Prefix2.DS } } rest
    else if b = PREFIX_ES then
      read_prefixes mode { st with buffer := { st.buffer with prefix2 := some Prefix2.ES } } rest
    else if b = PREFIX_FS then
      read_prefixes mode { st with buffer := { st.buffer with prefix2 := some Prefix2.FS } } rest
    else if b = PREFIX_GS then
      read_prefixes mode { st with buffer := { st.buffer with prefix2 := some Prefix2.GS } } rest
    else if b = PREFIX_BRANCH_NOT_TAKEN then
      read_prefixes mode
        { st with buffer := { st.buffer with prefix2 := some Prefix2.BranchNotTaken } } rest
    else if b = PREFIX_BRANCH_TAKEN then
      read_prefixes mode
        { st with buffer := { st.buffer with prefix2 := some Prefix2.BranchTaken } } rest
    else if b = PREFIX_TWO_BYTE_OPCODE then
      read_prefixes mode
        { st with buffer := { st.buffer with is_two_byte_opcode := true } } rest
    else if b = PREFIX_VEX2 then
      match rest with
      | [] => (RunResult.err InstructionDecodingError.PartialInstruction, [])
      | ByteItem.readFail :: r => (RunResult.err InstructionDecodingError.ReadError, r)
      | ByteItem.byte data :: r => read_prefixes mode (vex2_update mode st data) r
    else if b = PREFIX_VEX3 then
      match rest with
      | [] => (RunResult.err InstructionDecodingError.PartialInstruction, [])
      | ByteItem.readFail :: r => (RunResult.err InstructionDecodingError.ReadError, r)
      | ByteItem.byte data1 :: r1 =>
        match r1 with
        | [] => (RunResult.err InstructionDecodingError.PartialInstruction, [])
        | ByteItem.readFail :: r => (RunResult.err InstructionDecodingError.ReadError, r)
        | ByteItem.byte data2 :: r =>
          match vex3_update mode st data1 data2 with
          | Except.ok st' => read_prefixes mode st' r
          | Except.error e => (RunResult.err e, r)
    else if b = PREFIX_EVEX then
      match rest with
      | [] => (RunResult.err InstructionDecodingError.PartialInstruction, [])
      | ByteItem.readFail :: r => (RunResult.err InstructionDecodingError.ReadError, r)
      | ByteItem.byte data1 :: r1 =>
        match r1 with
        | [] => (RunResult.err InstructionDecodingError.PartialInstruction, [])
        | ByteItem.readFail :: r => (RunResult.err InstructionDecodingError.ReadError, r)
        | ByteItem.byte data2 :: r2 =>
          match r2 with
          | [] => (RunResult.err InstructionDecodingError.PartialInstruction, [])
          | ByteItem.readFail :: r => (RunResult.err InstructionDecodingError.ReadError, r)
          | ByteItem.byte data3 :: r =>
            match evex_update mode st data1 data2 data3 with
            | Except.ok st' => read_prefixes mode st' r
            | Except.error e => (RunResult.err e, r)
    else if mode = Mode.Long ∧ b &&& 0xF0 = 0x40 then
      read_prefixes mode (rex_update st b) rest
    else
      (RunResult.ok (st, b), rest)
termination_by structural s

/-- fn has_rex (decoding.rs lines 606-608). -/
def has_rex (buffer : InstructionBuffer) : Bool :=
  (buffer.composite_prefix.map (fun p => decide (p = CompositePrefix.Rex))).getD false

/-- fn get_addressing_mode (decoding.rs lines 589-596). -/
def get_addressing_mode (mode : Mode) (buffer : InstructionBuffer) : OperandSize :=
  match mode with
  | Mode.Real => if buffer.address_size_prefix then OperandSize.Dword else OperandSize.Word
  | Mode.Protected => if buffer.address_size_prefix then OperandSize.Word else OperandSize.Dword
  | Mode.Long => if buffer.address_size_prefix then OperandSize.Qword else OperandSize.Dword

/-- fn get_address_size (decoding.rs lines 351-357). -/
def get_address_size (mode : Mode) (buffer : InstructionBuffer) : OperandSize :=
  match mode, buffer.address_size_prefix with
  | Mode.Real, false => OperandSize.Word
  | Mode.Protected, true => OperandSize.Word
  | Mode.Real, true => OperandSize.Dword
  | Mode.Protected, false => OperandSize.Dword
  | Mode.Long, true => OperandSize.Dword
  | Mode.Long, false => OperandSize.Qword

/-- fn has_sib (decoding.rs lines 411-414).  Note: the source binds the
    mod field but its condition tests only the low three bits of the rm
    field. -/
def has_sib (mode : Mode) (buffer : InstructionBuffer) : Bool :=
  (mode ≠ Mode.Real) &&
    ((buffer.mod_rm_mod.bind (fun _rm_mod =>
        buffer.mod_rm_rm.map (fun rm_rm => decide ((rm_rm &&& 0b111) = 0b100)))).getD false)

/-- enum OperandEncoding (instruction_def.rs; the variants matched by
    decoding.rs). -/
inductive OperandEncoding where
  | ModRmReg
  | ModRmRm
  | Vex
  | Imm
  | OpcodeAddend
  | Offset
  | Mib
  | FixedPostAddend
  | Fixed
deriving DecidableEq, Repr

/-- enum FixedOperand. -/
inductive FixedOperand where
  | Reg (r : Reg)
  | Constant (v : Nat)
deriving DecidableEq, Repr

/-- enum OperandType (instruction_def.rs; the variants matched by
    decoding.rs). -/
inductive OperandType where
  | Reg (rt : RegType)
  | Imm
  | Mem
  | Fixed (f : FixedOperand)
deriving DecidableEq, Repr

/-- struct OperandDefinition (instruction_def.rs): one operand slot of a
    catalogue entry. -/
structure OperandDefinition where
  encoding : OperandEncoding
  op_type : OperandType
  size : OperandSize
deriving DecidableEq, Repr

/-- enum Mnemonic (the mnemonics used in this development). -/
inductive Mnemonic where
  | ADD
  | NOP
  | XSAVEC
  | KXNORQ
  | KANDB
deriving DecidableEq, Repr

/-- struct InstructionDefinition (instruction_def.rs): mnemonic, optional
    required opcode extension, and up to four optional operand slots. -/
structure InstructionDefinition where
  mnemonic : Mnemonic
  opcode_ext : Option Nat := none
  operands : List (Option OperandDefinition) := []
deriving DecidableEq, Repr

/-- enum FindInstructionDefByOpcodeError (instruction_def.rs). -/
inductive FindInstructionDefByOpcodeError where
  | NotFound
  | NeedOpcodeExt
deriving DecidableEq, Repr

/-- The type of the external catalogue lookup
    find_instruction_def_by_opcode(is_two_byte, primary, secondary,
    opcode_ext, mode).  The catalogue is an external collaborator (spec
    section 1), so the decoder is parametrised over it. -/
abbrev FindFn :=
  Bool → Nat → Option Nat → Option Nat → Mode →
    Except FindInstructionDefByOpcodeError InstructionDefinition

/-- fn has_mod_rm (decoding.rs lines 339-349). -/
def has_mod_rm (idef : InstructionDefinition) : Bool :=
  idef.opcode_ext.isSome ||
    idef.operands.any (fun o =>
      (o.map (fun op =>
        match op.encoding with
        | OperandEncoding.ModRmReg | OperandEncoding.ModRmRm
        | OperandEncoding.Mib | OperandEncoding.FixedPostAddend => true
        | _ => false)).getD false)

/-- enum Operand (the decoder's output operand forms). -/
inductive Operand where
  | Direct (r : Reg)
  | Literal8 (v : Nat)
  | Literal16 (v : Nat)
  | Literal32 (v : Nat)
  | Literal64 (v : Nat)
  | Memory (addr : Nat) (size : Option OperandSize) (seg : Option SegmentReg)
  | Offset (disp : Nat) (size : Option OperandSize) (seg : Option SegmentReg)
  | Indirect (base : Reg) (size : Option OperandSize) (seg : Option SegmentReg)
  | IndirectDisplaced (base : Reg) (disp : Nat) (size : Option OperandSize)
      (seg : Option SegmentReg)
  | IndirectScaledIndexed (base : Reg) (index : Reg) (scale : RegScale)
      (size : Option OperandSize) (seg : Option SegmentReg)
  | IndirectScaledIndexedDisplaced (base : Reg) (index : Reg) (scale : RegScale)
      (disp : Nat) (size : Option OperandSize) (seg : Option SegmentReg)
  | IndirectScaledDisplaced (index : Reg) (scale : RegScale) (disp : Nat)
      (size : Option OperandSize) (seg : Option SegmentReg)
  | MemoryAndSegment16 (seg : Nat) (addr : Nat)
  | MemoryAndSegment32 (seg : Nat) (addr : Nat)
deriving DecidableEq, Repr

/-- Modelled from the spec: fn get_operand_size is unimplemented!() in
    src/src/decoding.rs (lines 598-604); spec section 9 note 4 says the
    intended behaviour is the section 4.4 description: the slot's nominal
    size, with the W bit forcing 64 bits and the 0x66 prefix demoting
    32 to 16 in protected mode and promoting 16 to 32 in real mode. -/
def get_operand_size (mode : Mode) (op_def : OperandDefinition)
    (buffer : InstructionBuffer) : OperandSize :=
  if buffer.operand_size_64 then OperandSize.Qword
  else
    match op_def.size, mode, buffer.operand_size_prefix with
    | OperandSize.Dword, Mode.Protected, true => OperandSize.Word
    | OperandSize.Word, Mode.Real, true => OperandSize.Dword
    | s, _, _ => s

/-- fn read_disp8 (decoding.rs lines 310-312). -/
def read_disp8 : DecM Nat := expect_byte

/-- fn read_disp16 (decoding.rs lines 314-317): the little-endian fold
    (0..2).fold(0, a | b << 8 n), unrolled. -/
def read_disp16 : DecM Nat := do
  let b0 ← expect_byte
  let b1 ← expect_byte
  DecM.pure (b0 ||| (b1 <<< 8))

/-- fn read_disp32 (decoding.rs lines 319-322): the little-endian fold
    (0..4).fold(0, a | b << 8 n), unrolled. -/
def read_disp32 : DecM Nat := do
  let b0 ← expect_byte
  let b1 ← expect_byte
  let b2 ← expect_byte
  let b3 ← expect_byte
  DecM.pure (b0 ||| (b1 <<< 8) ||| (b2 <<< 16) ||| (b3 <<< 24))

/-- fn sib_helper (decoding.rs lines 547-587). -/
def sib_helper (mode : Mode) (buffer : InstructionBuffer) (op_def : OperandDefinition)
    (addr_size : OperandSize) : DecM Operand := do
  let scale ← DecM.ofOption InstructionDecodingError.InvalidInstruction
    (buffer.sib_scale.bind RegScale.from_sib_code)
  let index_code ← DecM.ofOption InstructionDecodingError.InvalidInstruction buffer.sib_index
  let index ← DecM.ofOption InstructionDecodingError.InvalidInstruction
    (Reg.from_code_general_sized index_code (has_rex buffer) addr_size)
  let base_code ← DecM.ofOption InstructionDecodingError.InvalidInstruction buffer.sib_base
  let base ← DecM.ofOption InstructionDecodingError.InvalidInstruction
    (Reg.from_code_general_sized base_code (has_rex buffer) addr_size)
  let m ← DecM.ofOption InstructionDecodingError.InvalidInstruction buffer.mod_rm_mod
  let segment := buffer.get_segment_reg
  let size := some (get_operand_size mode op_def buffer)
  match m with
  | 0b00 =>
    if index_code = 0b100 then
      if base_code &&& 0b111 = 0b101 then do
        let d ← read_disp32
        DecM.pure (Operand.Memory d size segment)
      else
        DecM.pure (Operand.Indirect base size segment)
    else
      if base_code &&& 0b111 = 0b101 then do
        let d ← read_disp32
        DecM.pure (Operand.IndirectScaledDisplaced index scale d size segment)
      else
        DecM.pure (Operand.IndirectScaledIndexed base index scale size segment)
  | 0b01 | 0b10 => do
    let d ← if m = 0b01 then read_disp8 else read_disp32
    if index_code = 0b100 then
      DecM.pure (Operand.IndirectDisplaced base d size segment)
    else
      DecM.pure (Operand.IndirectScaledIndexedDisplaced base index scale d size segment)
  | _ => DecM.panicOp

/-- fn rm_helper (decoding.rs lines 454-545). -/
def rm_helper (mode : Mode) (buffer : InstructionBuffer) (op_def : OperandDefinition)
    (conv_proc : Nat → Option Reg) : DecM Operand := do
  let rm ← DecM.ofOption InstructionDecodingError.InvalidInstruction buffer.mod_rm_rm
  let addr_size := get_address_size mode buffer
  match addr_size with
  | OperandSize.Word => do
    let m ← DecM.ofOption InstructionDecodingError.InvalidInstruction buffer.mod_rm_mod
    let size := get_operand_size mode op_def buffer
    let segment := buffer.get_segment_reg
    if m = 0b11 then
      match conv_proc rm with
      | some r => DecM.pure (Operand.Direct r)
      | none => DecM.throw InstructionDecodingError.InvalidInstruction
    else do
      let disp ←
        if (m = 0 ∧ rm ≠ 0b110) ∨ m = 3 then DecM.pure (none : Option Nat)
        else if m = 1 then do
          let d ← read_disp8
          DecM.pure (some d)
        else do
          let d ← read_disp16
          DecM.pure (some d)
      let pair ← (match rm with
        | 0 => DecM.pure (some Reg.BX, some Reg.SI)
        | 1 => DecM.pure (some Reg.BX, some Reg.DI)
        | 2 => DecM.pure (some Reg.BP, some Reg.SI)
        | 3 => DecM.pure (some Reg.BP, some Reg.DI)
        | 4 => DecM.pure (some Reg.SI, (none : Option Reg))
        | 5 => DecM.pure (some Reg.DI, none)
        | 6 => if m = 0 then DecM.pure (none, none) else DecM.pure (some Reg.BP, none)
        | 7 => DecM.pure (some Reg.BX, none)
        | _ => DecM.panicOp)
      match pair.1, pair.2, disp with
      | none, none, some addr => DecM.pure (Operand.Memory addr (some size) segment)
      | some r1, none, none => DecM.pure (Operand.Indirect r1 (some size) segment)
      | some r1, none, some d => DecM.pure (Operand.IndirectDisplaced r1 d (some size) segment)
      | some r1, some r2, none =>
          DecM.pure (Operand.IndirectScaledIndexed r1 r2 RegScale.One (some size) segment)
      | some r1, some r2, some d =>
          DecM.pure
            (Operand.IndirectScaledIndexedDisplaced r1 r2 RegScale.One d (some size) segment)
      | _, _, _ => DecM.panicOp
  | OperandSize.Dword | OperandSize.Qword => do
    let size := some (get_operand_size mode op_def buffer)
    let segment := buffer.get_segment_reg
    let m ← DecM.ofOption InstructionDecodingError.InvalidInstruction buffer.mod_rm_mod
    match m &&& 0x7 with
    | 0b00 =>
      (match rm with
       | 0b000 | 0b001 | 0b010 | 0b011 | 0b110 | 0b111 =>
         (match Reg.from_code_general_sized rm (has_rex buffer) addr_size with
          | some r => DecM.pure (Operand.Indirect r size segment)
          | none => DecM.throw InstructionDecodingError.InvalidInstruction)
       | 0b100 => sib_helper mode buffer op_def addr_size
       | 0b101 =>
         if addr_size = OperandSize.Dword then do
           let d ← read_disp32
           DecM.pure (Operand.Memory d size segment)
         else do
           let d ← read_disp32
           DecM.pure (Operand.Offset d size segment)
       | _ => DecM.panicOp)
    | 0b01 =>
      (match rm with
       | 0b000 | 0b001 | 0b010 | 0b011 | 0b101 | 0b110 | 0b111 =>
         (match Reg.from_code_general_sized rm (has_rex buffer) addr_size with
          | some r => do
            let d ← read_disp8
            DecM.pure (Operand.IndirectDisplaced r d size segment)
          | none => DecM.throw InstructionDecodingError.InvalidInstruction)
       | 0b100 => sib_helper mode buffer op_def addr_size
       | _ => DecM.panicOp)
    | 0b10 =>
      (match rm with
       | 0b000 | 0b001 | 0b010 | 0b011 | 0b101 | 0b110 | 0b111 =>
         (match Reg.from_code_general_sized rm (has_rex buffer) addr_size with
          | some r => do
            let d ← read_disp32
            DecM.pure (Operand.IndirectDisplaced r d size segment)
          | none => DecM.throw InstructionDecodingError.InvalidInstruction)
       | 0b100 => sib_helper mode buffer op_def addr_size
       | _ => DecM.panicOp)
    | 0b11 =>
      (match conv_proc rm with
       | some r => DecM.pure (Operand.Direct r)
       | none => DecM.throw InstructionDecodingError.InvalidInstruction)
    | _ => DecM.panicOp
  | _ => DecM.panicOp

/-- fn read_operand (decoding.rs lines 216-292).  The panic! and
    unimplemented! arms of the source are modelled by DecM.panicOp. -/
def read_operand (mode : Mode) (op_def : OperandDefinition)
    (buffer : InstructionBuffer) : DecM Operand := do
  let size := get_operand_size mode op_def buffer
  let _addr_size := get_address_size mode buffer
  match op_def.encoding with
  | OperandEncoding.ModRmReg =>
    (match op_def.op_type with
     | OperandType.Reg reg_type => do
       let code ← DecM.unwrapOrPanic buffer.mod_rm_reg
       (match Reg.from_code_reg_type code reg_type size with
        | some r => DecM.pure (Operand.Direct r)
        | none => DecM.throw InstructionDecodingError.InvalidInstruction)
     | _ => DecM.panicOp)
  | OperandEncoding.ModRmRm =>
    let reg_type :=
      match op_def.op_type with
      | OperandType.Reg rt => rt
      | _ => RegType.General
    rm_helper mode buffer op_def (fun c => Reg.from_code_reg_type c reg_type size)
  | OperandEncoding.Vex =>
    (match op_def.op_type with
     | OperandType.Reg reg_type => do
       let code ← DecM.unwrapOrPanic buffer.mod_rm_reg
       (match Reg.from_code_reg_type code reg_type size with
        | some r => DecM.pure (Operand.Direct r)
        | none => DecM.throw InstructionDecodingError.InvalidInstruction)
     | _ => DecM.panicOp)
  | OperandEncoding.Imm =>
    (match op_def.op_type with
     | OperandType.Reg reg_type => do
       let b ← expect_byte
       (match Reg.from_code_reg_type b reg_type size with
        | some r => DecM.pure (Operand.Direct r)
        | none => DecM.throw InstructionDecodingError.InvalidInstruction)
     | OperandType.Imm =>
       (match op_def.size with
        | OperandSize.Byte => do
          let b ← expect_byte
          DecM.pure (Operand.Literal8 b)
        | OperandSize.Word => do
          let w ← read_disp16
          DecM.pure (Operand.Literal16 w)
        | OperandSize.Dword => do
          let d ← read_disp32
          DecM.pure (Operand.Literal32 d)
        | _ => DecM.panicOp)
     | _ => DecM.panicOp)
  | OperandEncoding.OpcodeAddend =>
    (match op_def.op_type with
     | OperandType.Reg reg_type =>
       (match Reg.from_code_reg_type (buffer.primary_opcode &&& 0x7) reg_type size with
        | some r => DecM.pure (Operand.Direct r)
        | none => DecM.throw InstructionDecodingError.InvalidInstruction)
     | _ => DecM.panicOp)
  | OperandEncoding.Offset => DecM.panicOp
  | OperandEncoding.Mib => DecM.panicOp
  | OperandEncoding.FixedPostAddend => DecM.panicOp
  | OperandEncoding.Fixed =>
    (match op_def.op_type with
     | OperandType.Fixed (FixedOperand.Reg r) => DecM.pure (Operand.Direct r)
     | OperandType.Fixed (FixedOperand.Constant v) =>
       (match op_def.size with
        | OperandSize.Unsized => DecM.pure (Operand.Literal8 (v % 2 ^ 8))
        | OperandSize.Byte => DecM.pure (Operand.Literal8 (v % 2 ^ 8))
        | OperandSize.Word => DecM.pure (Operand.Literal16 (v % 2 ^ 16))
        | OperandSize.Dword => DecM.pure (Operand.Literal32 v)
        | OperandSize.Qword => DecM.pure (Operand.Literal64 v))
     | _ => DecM.panicOp)

/-- The operand collection of read (decoding.rs lines 194-199): iterate
    the definition's operand slots, decode the Some slots in order, and
    stop at the first error. -/
def read_operands (mode : Mode) (ops : List (Option OperandDefinition))
    (buffer : InstructionBuffer) : DecM (List Operand) :=
  match ops with
  | [] => DecM.pure []
  | none :: rest => read_operands mode rest buffer
  | some op_def :: rest => do
    let o ← read_operand mode op_def buffer
    let os ← read_operands mode rest buffer
    DecM.pure (o :: os)

/-- struct Instruction (the decoder's output).  The rounding_mode,
    merge_mode, sae, mask and broadcast fields are modelled with
    placeholder types: read never constructs an Instruction (see
    construct_instruction). -/
structure Instruction where
  mnemonic : Mnemonic
  operand1 : Option Operand := none
  operand2 : Option Operand := none
  operand3 : Option Operand := none
  operand4 : Option Operand := none
  lock : Bool := false
  rounding_mode : Option Nat := none
  merge_mode : Option MergeMode := none
  sae : Bool := false
  mask : Option Nat := none
  broadcast : Option Nat := none
deriving DecidableEq, Repr

/-- The final Ok(Instruction { .. }) expression of read (decoding.rs
    lines 201-213).  Its rounding_mode, merge_mode, sae, mask and
    broadcast fields are all unimplemented!() in the source, so every
    evaluation of this expression panics. -/
def construct_instruction (_idef : InstructionDefinition) (_buffer : InstructionBuffer)
    (_operands : List Operand) : DecM Instruction :=
  DecM.panicOp

/-- The ModR/M and SIB reading section of read (decoding.rs lines
    169-184). -/
def read_modrm_sib (addr_mode : Mode) (reg_ext index_ext b_ext : Nat)
    (buffer : InstructionBuffer) : DecM InstructionBuffer := do
  let mod_rm ← expect_byte
  let buffer := { buffer with
    mod_rm_mod := some (mod_rm >>> 6),
    mod_rm_reg := some (((mod_rm >>> 3) &&& 0x7) ||| reg_ext),
    mod_rm_rm := some (mod_rm &&& 0x7) }
  if has_sib addr_mode buffer then do
    let sib ← expect_byte
    DecM.pure { buffer with
      sib_scale := some (sib >>> 6),
      sib_index := some (((sib >>> 3) &&& 0x7) ||| index_ext),
      sib_base := some ((sib &&& 0x7) ||| b_ext) }
  else
    DecM.pure { buffer with
      mod_rm_reg := buffer.mod_rm_reg.map (fun reg => reg ||| b_ext),
      mod_rm_rm := buffer.mod_rm_rm.map (fun rm => rm ||| index_ext) }

/-- The body of read after the end-of-stream check (decoding.rs lines
    51-213). -/
def read_body (find : FindFn) (mode : Mode) : DecM Instruction := do
  let pr ← read_prefixes mode PrefixState.init
  let st := pr.1
  let opcode_byte := pr.2
  let _addr_mode_size := get_addressing_mode mode st.buffer
  let addr_mode ← DecM.unwrapOrPanic (Mode.from_size (get_addressing_mode mode st.buffer))
  let buffer :=
    if st.buffer.primary_opcode = 0 then { st.buffer with primary_opcode := opcode_byte }
    else { st.buffer with secondary_opcode := some opcode_byte }
  let buffer ←
    if (buffer.primary_opcode == 0x38 || buffer.primary_opcode == 0x3A) &&
        buffer.secondary_opcode.isNone then do
      let b ← expect_byte
      DecM.pure { buffer with secondary_opcode := some b }
    else
      DecM.pure buffer
  let def_res := find buffer.is_two_byte_opcode buffer.primary_opcode
    buffer.secondary_opcode none mode
  let buffer ←
    if (match def_res with
        | Except.ok d => has_mod_rm d
        | Except.error e => decide (e = FindInstructionDefByOpcodeError.NeedOpcodeExt)) then
      read_modrm_sib addr_mode st.reg_ext st.index_ext st.b_ext buffer
    else
      DecM.pure buffer
  let idef ←
    (match def_res with
     | Except.ok d => DecM.pure d
     | Except.error _ => do
       let reg ← DecM.unwrapOrPanic buffer.mod_rm_reg
       (match find buffer.is_two_byte_opcode buffer.primary_opcode
           buffer.secondary_opcode (some reg) mode with
        | Except.ok d => DecM.pure d
        | Except.error _ => DecM.throw InstructionDecodingError.UnknownOpcode))
  let operands ← read_operands mode idef.operands buffer
  construct_instruction idef buffer operands

/-- fn read (decoding.rs lines 38-214): the end-of-stream peek, then the
    decoding body. -/
def InstructionReader.read (find : FindFn) (mode : Mode) : DecM Instruction := fun s =>
  if s.isEmpty then (RunResult.err InstructionDecodingError.EndOfStream, s)
  else read_body find mode s

/-- A catalogue with no entries (every lookup fails with NotFound). -/
def find_none : FindFn := fun _ _ _ _ _ => Except.error FindInstructionDefByOpcodeError.NotFound

/-- Modelled from the spec: the catalogue entry for XSAVEC (0F C7 /4, one
    ModR/M-rm memory operand), as exercised by the repository test
    src/src/test/instruction_tests/instr_xsavec.rs. -/
def xsavec_def : InstructionDefinition :=
  { mnemonic := Mnemonic.XSAVEC, opcode_ext := some 4,
    operands := [some { encoding := OperandEncoding.ModRmRm, op_type := OperandType.Mem,
                        size := OperandSize.Unsized }] }

/-- Modelled from the spec: a catalogue holding only XSAVEC; the bare
    opcode 0F C7 needs the ModR/M reg field as opcode extension, so the
    lookup without an extension reports NeedOpcodeExt (spec section 4.3). -/
def find_xsavec : FindFn := fun two_byte primary secondary ext _mode =>
  if two_byte && primary == 0xC7 && secondary.isNone then
    match ext with
    | none => Except.error FindInstructionDefByOpcodeError.NeedOpcodeExt
    | some 4 => Except.ok xsavec_def
    | some _ => Except.error FindInstructionDefByOpcodeError.NotFound
  else Except.error FindInstructionDefByOpcodeError.NotFound

/-- Modelled from the spec: the catalogue entry for KXNORQ (VEX 0F 46 /r,
    three mask-register operands), as exercised by the repository test
    src/src/test/instruction_tests/instr_kxnorq.rs. -/
def kxnorq_def : InstructionDefinition :=
  { mnemonic := Mnemonic.KXNORQ, opcode_ext := none,
    operands :=
      [some { encoding := OperandEncoding.ModRmReg,
              op_type := OperandType.Reg RegType.Mask, size := OperandSize.Unsized },
       some { encoding := OperandEncoding.Vex,
              op_type := OperandType.Reg RegType.Mask, size := OperandSize.Unsized },
       some { encoding := OperandEncoding.ModRmRm,
              op_type := OperandType.Reg RegType.Mask, size := OperandSize.Unsized }] }

/-- Modelled from the spec: a catalogue holding only KXNORQ. -/
def find_kxnorq : FindFn := fun two_byte primary _secondary _ext _mode =>
  if two_byte && primary == 0x46 then Except.ok kxnorq_def
  else Except.error FindInstructionDefByOpcodeError.NotFound

/-- The stream discipline of one decoding step outcome: it is never
    EndOfStream (only read's initial peek produces that), and it is
    PartialInstruction only at the moment the stream is exhausted (the
    remaining stream is then empty). -/
def StreamOk {α : Type} : RunResult α × ByteStream → Prop
  | (RunResult.err InstructionDecodingError.EndOfStream, _) => False
  | (RunResult.err InstructionDecodingError.PartialInstruction, r) => r = []
  | _ => True

/-- The stream discipline of a decoding computation, at every input. -/
def DecM.Wf {α : Type} (m : DecM α) : Prop :=
  ∀ s : ByteStream, StreamOk (m s)

theorem StreamOk.ne_eos {α : Type} {p : RunResult α × ByteStream} (h : StreamOk p) :
    p.1 ≠ RunResult.err InstructionDecodingError.EndOfStream := by
  rcases p with ⟨r, s⟩
  intro hc
  simp only at hc
  subst hc
  simp [StreamOk] at h

theorem StreamOk.partial_nil {α : Type} {p : RunResult α × ByteStream} (h : StreamOk p) :
    p.1 = RunResult.err InstructionDecodingError.PartialInstruction → p.2 = [] := by
  rcases p with ⟨r, s⟩
  intro hc
  simp only at hc
  subst hc
  simpa [StreamOk] using h

theorem DecM.wf_pure {α : Type} (a : α) : (DecM.pure a).Wf := by
  intro s
  simp [DecM.pure, StreamOk]

theorem DecM.wf_panicOp {α : Type} : (DecM.panicOp : DecM α).Wf := by
  intro s
  simp [DecM.panicOp, StreamOk]

theorem DecM.wf_throw {α : Type} {e : InstructionDecodingError}
    (h1 : e ≠ InstructionDecodingError.EndOfStream)
    (h2 : e ≠ InstructionDecodingError.PartialInstruction) : (DecM.throw e : DecM α).Wf := by
  intro s
  cases e <;> simp_all [DecM.throw, StreamOk]

theorem DecM.wf_ofOption {α : Type} {e : InstructionDecodingError}
    (h1 : e ≠ InstructionDecodingError.EndOfStream)
    (h2 : e ≠ InstructionDecodingError.PartialInstruction) (o : Option α) :
    (DecM.ofOption e o).Wf := by
  cases o with
  | some a => exact DecM.wf_pure a
  | none => exact DecM.wf_throw h1 h2

theorem DecM.wf_unwrapOrPanic {α : Type} (o : Option α) : (DecM.unwrapOrPanic o).Wf := by
  cases o with
  | some a => exact DecM.wf_pure a
  | none => exact DecM.wf_panicOp

theorem DecM.wf_expect_byte : expect_byte.Wf := by
  intro s
  match s with
  | [] => simp [expect_byte, StreamOk]
  | ByteItem.readFail :: rest => simp [expect_byte, StreamOk]
  | ByteItem.byte b :: rest => simp [expect_byte, StreamOk]

theorem DecM.wf_bind {α β : Type} {m : DecM α} {f : α → DecM β}
    (hm : m.Wf) (hf : ∀ a, (f a).Wf) : (DecM.bind m f).Wf := by
  intro s
  have hms := hm s
  simp only [DecM.bind]
  rcases hrun : m s with ⟨r, s'⟩
  rw [hrun] at hms
  cases r with
  | ok a => simpa using hf a s'
  | err e => cases e <;> simp_all [StreamOk]
  | panicked => simp [StreamOk]

theorem wf_read_disp8 : read_disp8.Wf := DecM.wf_expect_byte

theorem wf_read_disp16 : read_disp16.Wf := by
  unfold read_disp16
  simp only [DecM.monad_bind_eq]
  exact DecM.wf_bind DecM.wf_expect_byte fun _ =>
    DecM.wf_bind DecM.wf_expect_byte fun _ => DecM.wf_pure _

theorem wf_read_disp32 : read_disp32.Wf := by
  unfold read_disp32
  simp only [DecM.monad_bind_eq]
  exact DecM.wf_bind DecM.wf_expect_byte fun _ =>
    DecM.wf_bind DecM.wf_expect_byte fun _ =>
      DecM.wf_bind DecM.wf_expect_byte fun _ =>
        DecM.wf_bind DecM.wf_expect_byte fun _ => DecM.wf_pure _

theorem wf_sib_helper (mode : Mode) (buffer : InstructionBuffer) (op_def : OperandDefinition)
    (addr_size : OperandSize) : (sib_helper mode buffer op_def addr_size).Wf := by
  unfold sib_helper
  simp only [DecM.monad_bind_eq, DecM.monad_pure_eq]
  repeat' first
  | apply DecM.wf_bind
  | exact DecM.wf_pure _
  | exact DecM.wf_panicOp
  | exact DecM.wf_expect_byte
  | exact wf_read_disp8
  | exact wf_read_disp32
  | exact DecM.wf_ofOption (by decide) (by decide) _
  | exact DecM.wf_unwrapOrPanic _
  | split
  | intro a

theorem wf_rm_helper (mode : Mode) (buffer : InstructionBuffer) (op_def : OperandDefinition)
    (conv_proc : Nat → Option Reg) : (rm_helper mode buffer op_def conv_proc).Wf := by
  unfold rm_helper
  simp only [DecM.monad_bind_eq, DecM.monad_pure_eq]
  refine DecM.wf_bind (DecM.wf_ofOption (by decide) (by decide) _) (fun rm => ?_)
  split
  · -- 16-bit address-size arm
    refine DecM.wf_bind (DecM.wf_ofOption (by decide) (by decide) _) (fun m => ?_)
    split
    · split
      · exact DecM.wf_pure _
      · exact DecM.wf_throw (by decide) (by decide)
    · -- non-register-direct 16-bit forms
      repeat' first
      | exact DecM.wf_pure _
      | exact DecM.wf_panicOp
      | exact wf_read_disp8
      | exact wf_read_disp16
      | apply DecM.wf_bind
      | split
      | intro y
  · -- 32-bit address-size arm
    refine DecM.wf_bind (DecM.wf_ofOption (by decide) (by decide) _) (fun m => ?_)
    repeat' first
    | exact DecM.wf_pure _
    | exact DecM.wf_panicOp
    | exact wf_read_disp8
    | exact wf_read_disp32
    | exact wf_sib_helper mode buffer op_def _
    | exact DecM.wf_throw (by decide) (by decide)
    | apply DecM.wf_bind
    | split
    | intro y
  · -- 64-bit address-size arm
    refine DecM.wf_bind (DecM.wf_ofOption (by decide) (by decide) _) (fun m => ?_)
    repeat' first
    | exact DecM.wf_pure _
    | exact DecM.wf_panicOp
    | exact wf_read_disp8
    | exact wf_read_disp32
    | exact wf_sib_helper mode buffer op_def _
    | exact DecM.wf_throw (by decide) (by decide)
    | apply DecM.wf_bind
    | split
    | intro y
  · exact DecM.wf_panicOp

theorem wf_read_operand (mode : Mode) (op_def : OperandDefinition)
    (buffer : InstructionBuffer) : (read_operand mode op_def buffer).Wf := by
  unfold read_operand
  simp only [DecM.monad_bind_eq, DecM.monad_pure_eq]
  split
  · -- ModRmReg
    split
    · refine DecM.wf_bind (DecM.wf_unwrapOrPanic _) (fun code => ?_)
      split
      · exact DecM.wf_pure _
      · exact DecM.wf_throw (by decide) (by decide)
    · exact DecM.wf_panicOp
  · -- ModRmRm
    exact wf_rm_helper mode buffer op_def _
  · -- Vex
    split
    · refine DecM.wf_bind (DecM.wf_unwrapOrPanic _) (fun code => ?_)
      split
      · exact DecM.wf_pure _
      · exact DecM.wf_throw (by decide) (by decide)
    · exact DecM.wf_panicOp
  · -- Imm
    split
    · refine DecM.wf_bind DecM.wf_expect_byte (fun b => ?_)
      split
      · exact DecM.wf_pure _
      · exact DecM.wf_throw (by decide) (by decide)
    · split
      · exact DecM.wf_bind DecM.wf_expect_byte fun _ => DecM.wf_pure _
      · exact DecM.wf_bind wf_read_disp16 fun _ => DecM.wf_pure _
      · exact DecM.wf_bind wf_read_disp32 fun _ => DecM.wf_pure _
      · exact DecM.wf_panicOp
    · exact DecM.wf_panicOp
  · -- OpcodeAddend
    split
    · split
      · exact DecM.wf_pure _
      · exact DecM.wf_throw (by decide) (by decide)
    · exact DecM.wf_panicOp
  · exact DecM.wf_panicOp
  · exact DecM.wf_panicOp
  · exact DecM.wf_panicOp
  · -- Fixed
    split
    · exact DecM.wf_pure _
    · split
      · exact DecM.wf_pure _
      · exact DecM.wf_pure _
      · exact DecM.wf_pure _
      · exact DecM.wf_pure _
      · exact DecM.wf_pure _
    · exact DecM.wf_panicOp

theorem wf_read_operands (mode : Mode) (ops : List (Option OperandDefinition))
    (buffer : InstructionBuffer) : (read_operands mode ops buffer).Wf := by
  induction ops with
  | nil =>
    unfold read_operands
    exact DecM.wf_pure _
  | cons o rest ih =>
    cases o with
    | none =>
      unfold read_operands
      exact ih
    | some op_def =>
      unfold read_operands
      simp only [DecM.monad_bind_eq, DecM.monad_pure_eq]
      exact DecM.wf_bind (wf_read_operand mode op_def buffer) fun _ =>
        DecM.wf_bind ih fun _ => DecM.wf_pure _

theorem wf_construct_instruction (idef : InstructionDefinition) (buffer : InstructionBuffer)
    (operands : List Operand) : (construct_instruction idef buffer operands).Wf :=
  DecM.wf_panicOp

theorem wf_read_modrm_sib (addr_mode : Mode) (reg_ext index_ext b_ext : Nat)
    (buffer : InstructionBuffer) :
    (read_modrm_sib addr_mode reg_ext index_ext b_ext buffer).Wf := by
  unfold read_modrm_sib
  simp only [DecM.monad_bind_eq, DecM.monad_pure_eq]
  repeat' first
  | apply DecM.wf_bind
  | exact DecM.wf_pure _
  | exact DecM.wf_expect_byte
  | split
  | intro a

set_option maxHeartbeats 1000000 in
theorem vex3_update_error {mode : Mode} {st : PrefixState} {d1 d2 : Nat}
    {e : InstructionDecodingError} (h : vex3_update mode st d1 d2 = Except.error e) :
    e = InstructionDecodingError.InvalidInstruction := by
  unfold vex3_update at h
  split at h <;> simp_all

set_option maxHeartbeats 1000000 in
theorem evex_update_error {mode : Mode} {st : PrefixState} {d1 d2 d3 : Nat}
    {e : InstructionDecodingError} (h : evex_update mode st d1 d2 d3 = Except.error e) :
    e = InstructionDecodingError.InvalidInstruction := by
  unfold evex_update at h
  split at h <;> simp_all

theorem streamOk_err_invalid {r : ByteStream} {e : InstructionDecodingError}
    (he : e = InstructionDecodingError.InvalidInstruction) :
    StreamOk ((RunResult.err e, r) : RunResult (PrefixState × Nat) × ByteStream) := by
  subst he
  simp [StreamOk]

theorem streamOk_ok {α : Type} (a : α) (r : ByteStream) :
    StreamOk ((RunResult.ok a, r)) := by
  simp [StreamOk]

theorem streamOk_partial {α : Type} :
    StreamOk ((RunResult.err InstructionDecodingError.PartialInstruction, ([] : ByteStream)) :
      RunResult α × ByteStream) := rfl

theorem streamOk_readErr {α : Type} (r : ByteStream) :
    StreamOk ((RunResult.err InstructionDecodingError.ReadError, r) :
      RunResult α × ByteStream) := by
  simp [StreamOk]

theorem streamOk_ite {α : Type} {c : Prop} [Decidable c] {t e : RunResult α × ByteStream}
    (ht : c → StreamOk t) (he : ¬c → StreamOk e) : StreamOk (if c then t else e) := by
  by_cases hc : c
  · rw [if_pos hc]
    exact ht hc
  · rw [if_neg hc]
    exact he hc


/-- One full step of the prefix loop on a byte: the generic unfolding of
    read_prefixes at a stream whose head is a byte, for an arbitrary
    tail. -/
theorem read_prefixes_cons (mode : Mode) (st : PrefixState) (b : Nat) (rest : ByteStream) :
    read_prefixes mode st (ByteItem.byte b :: rest) =
    (    if b = PREFIX_LOCK then
      read_prefixes mode { st with buffer := { st.buffer with prefix1 := some Prefix1.Lock } } rest
    else if b = PREFIX_REPNE then
      read_prefixes mode { st with buffer := { st.buffer with prefix1 := some Prefix1.RepNE } } rest
    else if b = PREFIX_REP then
      read_prefixes mode { st with buffer := { st.buffer with prefix1 := some Prefix1.Rep } } rest
    else if b = PREFIX_OP_SIZE then
      read_prefixes mode { st with buffer := { st.buffer with operand_size_prefix := true } } rest
    else if b = PREFIX_ADDR_SIZE then
      read_prefixes mode { st with buffer := { st.buffer with address_size_prefix := true } } rest
    else if b = PREFIX_CS then
      read_prefixes mode { st with buffer := { st.buffer with prefix2 := some Prefix2.CS } } rest
    else if b = PREFIX_SS then
      read_prefixes mode { st with buffer := { st.buffer with prefix2 := some Prefix2.SS } } rest
    else if b = PREFIX_DS then
      read_prefixes mode { st with buffer := { st.buffer with prefix2 := some Prefix2.DS } } rest
    else if b = PREFIX_ES then
      read_prefixes mode { st with buffer := { st.buffer with prefix2 := some Prefix2.ES } } rest
    else if b = PREFIX_FS then
      read_prefixes mode { st with buffer := { st.buffer with prefix2 := some Prefix2.FS } } rest
    else if b = PREFIX_GS then
      read_prefixes mode { st with buffer := { st.buffer with prefix2 := some Prefix2.GS } } rest
    else if b = PREFIX_BRANCH_NOT_TAKEN then
      read_prefixes mode
        { st with buffer := { st.buffer with prefix2 := some Prefix2.BranchNotTaken } } rest
    else if b = PREFIX_BRANCH_TAKEN then
      read_prefixes mode
        { st with buffer := { st.buffer with prefix2 := some Prefix2.BranchTaken } } rest
    else if b = PREFIX_TWO_BYTE_OPCODE then
      read_prefixes mode
        { st with buffer := { st.buffer with is_two_byte_opcode := true } } rest
    else if b = PREFIX_VEX2 then
      match rest with
      | [] => (RunResult.err InstructionDecodingError.PartialInstruction, [])
      | ByteItem.readFail :: r => (RunResult.err InstructionDecodingError.ReadError, r)
      | ByteItem.byte data :: r => read_prefixes mode (vex2_update mode st data) r
    else if b = PREFIX_VEX3 then
      match rest with
      | [] => (RunResult.err InstructionDecodingError.PartialInstruction, [])
      | ByteItem.readFail :: r => (RunResult.err InstructionDecodingError.ReadError, r)
      | ByteItem.byte data1 :: r1 =>
        match r1 with
        | [] => (RunResult.err InstructionDecodingError.PartialInstruction, [])
        | ByteItem.readFail :: r => (RunResult.err InstructionDecodingError.ReadError, r)
        | ByteItem.byte data2 :: r =>
          match vex3_update mode st data1 data2 with
          | Except.ok st' => read_prefixes mode st' r
          | Except.error e => (RunResult.err e, r)
    else if b = PREFIX_EVEX then
      match rest with
      | [] => (RunResult.err InstructionDecodingError.PartialInstruction, [])
      | ByteItem.readFail :: r => (RunResult.err InstructionDecodingError.ReadError, r)
      | ByteItem.byte data1 :: r1 =>
        match r1 with
        | [] => (RunResult.err InstructionDecodingError.PartialInstruction, [])
        | ByteItem.readFail :: r => (RunResult.err InstructionDecodingError.ReadError, r)
        | ByteItem.byte data2 :: r2 =>
          match r2 with
          | [] => (RunResult.err InstructionDecodingError.PartialInstruction, [])
          | ByteItem.readFail :: r => (RunResult.err InstructionDecodingError.ReadError, r)
          | ByteItem.byte data3 :: r =>
            match evex_update mode st data1 data2 data3 with
            | Except.ok st' => read_prefixes mode st' r
            | Except.error e => (RunResult.err e, r)
    else if mode = Mode.Long ∧ b &&& 0xF0 = 0x40 then
      read_prefixes mode (rex_update st b) rest
    else
      (RunResult.ok (st, b), rest)) := by
  rcases rest with _ | ⟨d1 | _, rest1⟩
  · rw [read_prefixes.eq_3]
  · rcases rest1 with _ | ⟨d2 | _, rest2⟩
    · rw [read_prefixes.eq_5]
    · rcases rest2 with _ | ⟨d3 | _, rest3⟩
      · rw [read_prefixes.eq_7]
      · rw [read_prefixes.eq_9]
      · rw [read_prefixes.eq_8]
    · rw [read_prefixes.eq_6]
  · rw [read_prefixes.eq_4]

theorem streamOk_vex2_arm (mode : Mode) (st : PrefixState) (rest : ByteStream)
    (ih : ∀ (r : ByteStream) (st' : PrefixState), r.length < rest.length + 1 →
      StreamOk (read_prefixes mode st' r)) :
    StreamOk
      (match rest with
       | [] => (RunResult.err InstructionDecodingError.PartialInstruction, [])
       | ByteItem.readFail :: r => (RunResult.err InstructionDecodingError.ReadError, r)
       | ByteItem.byte data :: r => read_prefixes mode (vex2_update mode st data) r) := by
  rcases rest with _ | ⟨d | _, r⟩
  · exact streamOk_partial
  · exact ih r _ (by simp only [List.length_cons]; omega)
  · exact streamOk_readErr r

theorem streamOk_vex3_arm (mode : Mode) (st : PrefixState) (rest : ByteStream)
    (ih : ∀ (r : ByteStream) (st' : PrefixState), r.length < rest.length + 1 →
      StreamOk (read_prefixes mode st' r)) :
    StreamOk
      (match rest with
       | [] => (RunResult.err InstructionDecodingError.PartialInstruction, [])
       | ByteItem.readFail :: r => (RunResult.err InstructionDecodingError.ReadError, r)
       | ByteItem.byte data1 :: r1 =>
         match r1 with
         | [] => (RunResult.err InstructionDecodingError.PartialInstruction, [])
         | ByteItem.readFail :: r => (RunResult.err InstructionDecodingError.ReadError, r)
         | ByteItem.byte data2 :: r =>
           match vex3_update mode st data1 data2 with
           | Except.ok st' => read_prefixes mode st' r
           | Except.error e => (RunResult.err e, r)) := by
  rcases rest with _ | ⟨d1 | _, r1⟩
  · exact streamOk_partial
  · rcases r1 with _ | ⟨d2 | _, r⟩
    · exact streamOk_partial
    · show StreamOk
          (match vex3_update mode st d1 d2 with
           | Except.ok st' => read_prefixes mode st' r
           | Except.error e => (RunResult.err e, r))
      rcases hv : vex3_update mode st d1 d2 with e | st'
      · exact streamOk_err_invalid (vex3_update_error hv)
      · exact ih r st' (by simp only [List.length_cons]; omega)
    · exact streamOk_readErr r
  · exact streamOk_readErr r1

theorem streamOk_evex_arm (mode : Mode) (st : PrefixState) (rest : ByteStream)
    (ih : ∀ (r : ByteStream) (st' : PrefixState), r.length < rest.length + 1 →
      StreamOk (read_prefixes mode st' r)) :
    StreamOk
      (match rest with
       | [] => (RunResult.err InstructionDecodingError.PartialInstruction, [])
       | ByteItem.readFail :: r => (RunResult.err InstructionDecodingError.ReadError, r)
       | ByteItem.byte data1 :: r1 =>
         match r1 with
         | [] => (RunResult.err InstructionDecodingError.PartialInstruction, [])
         | ByteItem.readFail :: r => (RunResult.err InstructionDecodingError.ReadError, r)
         | ByteItem.byte data2 :: r2 =>
           match r2 with
           | [] => (RunResult.err InstructionDecodingError.PartialInstruction, [])
           | ByteItem.readFail :: r => (RunResult.err InstructionDecodingError.ReadError, r)
           | ByteItem.byte data3 :: r =>
             match evex_update mode st data1 data2 data3 with
             | Except.ok st' => read_prefixes mode st' r
             | Except.error e => (RunResult.err e, r)) := by
  rcases rest with _ | ⟨d1 | _, r1⟩
  · exact streamOk_partial
  · rcases r1 with _ | ⟨d2 | _, r2⟩
    · exact streamOk_partial
    · rcases r2 with _ | ⟨d3 | _, r⟩
      · exact streamOk_partial
      · show StreamOk
          (match evex_update mode st d1 d2 d3 with
           | Except.ok st' => read_prefixes mode st' r
           | Except.error e => (RunResult.err e, r))
        rcases hv : evex_update mode st d1 d2 d3 with e | st'
        · exact streamOk_err_invalid (evex_update_error hv)
        · exact ih r st' (by simp only [List.length_cons]; omega)
      · exact streamOk_readErr r
    · exact streamOk_readErr r2
  · exact streamOk_readErr r1

set_option maxHeartbeats 2000000 in
theorem wf_read_prefixes_len (mode : Mode) :
    ∀ (n : Nat) (s : ByteStream) (st : PrefixState), s.length < n →
    StreamOk (read_prefixes mode st s) := by
  intro n
  induction n with
  | zero => intro s st h; exact absurd h (Nat.not_lt_zero _)
  | succ n ih =>
    intro s st hlen
    rcases s with _ | ⟨b | _, rest⟩
    · simp [read_prefixes, StreamOk]
    · rw [read_prefixes_cons]
      repeat' first
        | apply streamOk_ite
        | intro y
        | exact streamOk_ok _ _
        | exact streamOk_vex2_arm mode st rest (fun r st' h => ih r st' (by
            simp only [List.length_cons] at hlen h ⊢
            omega))
        | exact streamOk_vex3_arm mode st rest (fun r st' h => ih r st' (by
            simp only [List.length_cons] at hlen h ⊢
            omega))
        | exact streamOk_evex_arm mode st rest (fun r st' h => ih r st' (by
            simp only [List.length_cons] at hlen h ⊢
            omega))
        | exact ih _ _ (by
            simp only [List.length_cons] at hlen ⊢
            omega)
    · simp [read_prefixes, StreamOk]


theorem wf_read_prefixes (mode : Mode) (st : PrefixState) :
    DecM.Wf (read_prefixes mode st) := fun s =>
  wf_read_prefixes_len mode (s.length + 1) s st (Nat.lt_succ_self _)

theorem wf_read_body (find : FindFn) (mode : Mode) : (read_body find mode).Wf := by
  unfold read_body
  simp only [DecM.monad_bind_eq, DecM.monad_pure_eq]
  refine DecM.wf_bind (wf_read_prefixes mode PrefixState.init) (fun pr => ?_)
  refine DecM.wf_bind (DecM.wf_unwrapOrPanic _) (fun addr_mode => ?_)
  repeat' first
  | exact DecM.wf_pure _
  | exact DecM.wf_panicOp
  | exact DecM.wf_expect_byte
  | exact wf_read_modrm_sib _ _ _ _ _
  | exact wf_read_operands _ _ _
  | exact wf_construct_instruction _ _ _
  | exact DecM.wf_unwrapOrPanic _
  | exact DecM.wf_throw (by decide) (by decide)
  | apply DecM.wf_bind
  | split
  | intro x


/-- One run extended by a read-failure sentinel: if the original run
    stopped with PartialInstruction (it tried to read past the end of the
    stream), the extended run reads the sentinel at that point and stops
    with ReadError leaving exactly the tail after the sentinel; otherwise
    the extended run gives the same outcome with the sentinel and tail
    still unread. -/
def ExtRes {α : Type} :
    RunResult α × ByteStream → RunResult α × ByteStream → ByteStream → Prop
  | (RunResult.err InstructionDecodingError.PartialInstruction, _), q, t =>
      q = (RunResult.err InstructionDecodingError.ReadError, t)
  | (r, rem), q, t => q = (r, rem ++ ByteItem.readFail :: t)

/-- A computation is extension-stable: appending a read-failure sentinel
    (and any tail) to its input stream relates the two runs by ExtRes, at
    every input. -/
def DecM.Ext {α : Type} (m : DecM α) : Prop :=
  ∀ s t : ByteStream, ExtRes (m s) (m (s ++ ByteItem.readFail :: t)) t

theorem extRes_ok {α : Type} (a : α) (rem t : ByteStream) :
    ExtRes (RunResult.ok a, rem) (RunResult.ok a, rem ++ ByteItem.readFail :: t) t := rfl

theorem extRes_probe {α : Type} (rem t : ByteStream) :
    ExtRes ((RunResult.err InstructionDecodingError.PartialInstruction, rem) :
        RunResult α × ByteStream)
      (RunResult.err InstructionDecodingError.ReadError, t) t := rfl

theorem extRes_readErr {α : Type} (rem t : ByteStream) :
    ExtRes ((RunResult.err InstructionDecodingError.ReadError, rem) :
        RunResult α × ByteStream)
      (RunResult.err InstructionDecodingError.ReadError, rem ++ ByteItem.readFail :: t) t := rfl

theorem extRes_err_invalid {e : InstructionDecodingError}
    (he : e = InstructionDecodingError.InvalidInstruction) (rem t : ByteStream) :
    ExtRes ((RunResult.err e, rem) : RunResult (PrefixState × Nat) × ByteStream)
      (RunResult.err e, rem ++ ByteItem.readFail :: t) t := by
  subst he
  rfl

theorem extRes_ite {α : Type} {c : Prop} [Decidable c]
    {p₁ p₂ q₁ q₂ : RunResult α × ByteStream} {t : ByteStream}
    (h1 : c → ExtRes p₁ q₁ t) (h2 : ¬c → ExtRes p₂ q₂ t) :
    ExtRes (if c then p₁ else p₂) (if c then q₁ else q₂) t := by
  by_cases hc : c
  · rw [if_pos hc, if_pos hc]
    exact h1 hc
  · rw [if_neg hc, if_neg hc]
    exact h2 hc

theorem DecM.ext_pure {α : Type} (a : α) : (DecM.pure a).Ext := by
  intro s t
  exact extRes_ok a s t

theorem DecM.ext_panicOp {α : Type} : (DecM.panicOp : DecM α).Ext := by
  intro s t
  simp [DecM.panicOp, ExtRes]

theorem DecM.ext_throw {α : Type} {e : InstructionDecodingError}
    (h : e ≠ InstructionDecodingError.PartialInstruction) : (DecM.throw e : DecM α).Ext := by
  intro s t
  cases e <;> simp_all [DecM.throw, ExtRes]

theorem DecM.ext_ofOption {α : Type} {e : InstructionDecodingError}
    (h : e ≠ InstructionDecodingError.PartialInstruction) (o : Option α) :
    (DecM.ofOption e o).Ext := by
  cases o with
  | some a => exact DecM.ext_pure a
  | none => exact DecM.ext_throw h

theorem DecM.ext_unwrapOrPanic {α : Type} (o : Option α) : (DecM.unwrapOrPanic o).Ext := by
  cases o with
  | some a => exact DecM.ext_pure a
  | none => exact DecM.ext_panicOp

theorem DecM.ext_expect_byte : expect_byte.Ext := by
  intro s t
  match s with
  | [] => exact extRes_probe [] t
  | ByteItem.readFail :: rest => exact extRes_readErr rest t
  | ByteItem.byte b :: rest => exact extRes_ok b rest t

theorem DecM.ext_bind {α β : Type} {m : DecM α} {f : α → DecM β}
    (hm : m.Ext) (hf : ∀ a, (f a).Ext) : (DecM.bind m f).Ext := by
  intro s t
  have hms := hm s t
  simp only [DecM.bind]
  rcases hrun : m s with ⟨r, s₁⟩
  rw [hrun] at hms
  cases r with
  | ok a =>
    have h2 : m (s ++ ByteItem.readFail :: t) =
        (RunResult.ok a, s₁ ++ ByteItem.readFail :: t) := hms
    rw [h2]
    exact hf a s₁ t
  | err e =>
    cases e with
    | PartialInstruction =>
      have h2 : m (s ++ ByteItem.readFail :: t) =
          (RunResult.err InstructionDecodingError.ReadError, t) := hms
      rw [h2]
      rfl
    | EndOfStream =>
      have h2 : m (s ++ ByteItem.readFail :: t) =
          (RunResult.err InstructionDecodingError.EndOfStream,
            s₁ ++ ByteItem.readFail :: t) := hms
      rw [h2]
      rfl
    | InvalidInstruction =>
      have h2 : m (s ++ ByteItem.readFail :: t) =
          (RunResult.err InstructionDecodingError.InvalidInstruction,
            s₁ ++ ByteItem.readFail :: t) := hms
      rw [h2]
      rfl
    | UnknownOpcode =>
      have h2 : m (s ++ ByteItem.readFail :: t) =
          (RunResult.err InstructionDecodingError.UnknownOpcode,
            s₁ ++ ByteItem.readFail :: t) := hms
      rw [h2]
      rfl
    | ReadError =>
      have h2 : m (s ++ ByteItem.readFail :: t) =
          (RunResult.err InstructionDecodingError.ReadError,
            s₁ ++ ByteItem.readFail :: t) := hms
      rw [h2]
      rfl
  | panicked =>
    have h2 : m (s ++ ByteItem.readFail :: t) =
        (RunResult.panicked, s₁ ++ ByteItem.readFail :: t) := hms
    rw [h2]
    rfl

theorem ext_read_disp8 : read_disp8.Ext := DecM.ext_expect_byte

theorem ext_read_disp16 : read_disp16.Ext := by
  unfold read_disp16
  simp only [DecM.monad_bind_eq]
  exact DecM.ext_bind DecM.ext_expect_byte fun _ =>
    DecM.ext_bind DecM.ext_expect_byte fun _ => DecM.ext_pure _

theorem ext_read_disp32 : read_disp32.Ext := by
  unfold read_disp32
  simp only [DecM.monad_bind_eq]
  exact DecM.ext_bind DecM.ext_expect_byte fun _ =>
    DecM.ext_bind DecM.ext_expect_byte fun _ =>
      DecM.ext_bind DecM.ext_expect_byte fun _ =>
        DecM.ext_bind DecM.ext_expect_byte fun _ => DecM.ext_pure _

theorem ext_sib_helper (mode : Mode) (buffer : InstructionBuffer) (op_def : OperandDefinition)
    (addr_size : OperandSize) : (sib_helper mode buffer op_def addr_size).Ext := by
  unfold sib_helper
  simp only [DecM.monad_bind_eq, DecM.monad_pure_eq]
  repeat' first
  | apply DecM.ext_bind
  | exact DecM.ext_pure _
  | exact DecM.ext_panicOp
  | exact DecM.ext_expect_byte
  | exact ext_read_disp8
  | exact ext_read_disp32
  | exact DecM.ext_ofOption (by decide) _
  | exact DecM.ext_unwrapOrPanic _
  | split
  | intro a

theorem ext_rm_helper (mode : Mode) (buffer : InstructionBuffer) (op_def : OperandDefinition)
    (conv_proc : Nat → Option Reg) : (rm_helper mode buffer op_def conv_proc).Ext := by
  unfold rm_helper
  simp only [DecM.monad_bind_eq, DecM.monad_pure_eq]
  refine DecM.ext_bind (DecM.ext_ofOption (by decide) _) (fun rm => ?_)
  split
  · refine DecM.ext_bind (DecM.ext_ofOption (by decide) _) (fun m => ?_)
    split
    · split
      · exact DecM.ext_pure _
      · exact DecM.ext_throw (by decide)
    · repeat' first
      | exact DecM.ext_pure _
      | exact DecM.ext_panicOp
      | exact ext_read_disp8
      | exact ext_read_disp16
      | apply DecM.ext_bind
      | split
      | intro y
  · refine DecM.ext_bind (DecM.ext_ofOption (by decide) _) (fun m => ?_)
    repeat' first
    | exact DecM.ext_pure _
    | exact DecM.ext_panicOp
    | exact ext_read_disp8
    | exact ext_read_disp32
    | exact ext_sib_helper mode buffer op_def _
    | exact DecM.ext_throw (by decide)
    | apply DecM.ext_bind
    | split
    | intro y
  · refine DecM.ext_bind (DecM.ext_ofOption (by decide) _) (fun m => ?_)
    repeat' first
    | exact DecM.ext_pure _
    | exact DecM.ext_panicOp
    | exact ext_read_disp8
    | exact ext_read_disp32
    | exact ext_sib_helper mode buffer op_def _
    | exact DecM.ext_throw (by decide)
    | apply DecM.ext_bind
    | split
    | intro y
  · exact DecM.ext_panicOp

theorem ext_read_operand (mode : Mode) (op_def : OperandDefinition)
    (buffer : InstructionBuffer) : (read_operand mode op_def buffer).Ext := by
  unfold read_operand
  simp only [DecM.monad_bind_eq, DecM.monad_pure_eq]
  split
  · split
    · refine DecM.ext_bind (DecM.ext_unwrapOrPanic _) (fun code => ?_)
      split
      · exact DecM.ext_pure _
      · exact DecM.ext_throw (by decide)
    · exact DecM.ext_panicOp
  · exact ext_rm_helper mode buffer op_def _
  · split
    · refine DecM.ext_bind (DecM.ext_unwrapOrPanic _) (fun code => ?_)
      split
      · exact DecM.ext_pure _
      · exact DecM.ext_throw (by decide)
    · exact DecM.ext_panicOp
  · split
    · refine DecM.ext_bind DecM.ext_expect_byte (fun b => ?_)
      split
      · exact DecM.ext_pure _
      · exact DecM.ext_throw (by decide)
    · split
      · exact DecM.ext_bind DecM.ext_expect_byte fun _ => DecM.ext_pure _
      · exact DecM.ext_bind ext_read_disp16 fun _ => DecM.ext_pure _
      · exact DecM.ext_bind ext_read_disp32 fun _ => DecM.ext_pure _
      · exact DecM.ext_panicOp
    · exact DecM.ext_panicOp
  · split
    · split
      · exact DecM.ext_pure _
      · exact DecM.ext_throw (by decide)
    · exact DecM.ext_panicOp
  · exact DecM.ext_panicOp
  · exact DecM.ext_panicOp
  · exact DecM.ext_panicOp
  · split
    · exact DecM.ext_pure _
    · split
      · exact DecM.ext_pure _
      · exact DecM.ext_pure _
      · exact DecM.ext_pure _
      · exact DecM.ext_pure _
      · exact DecM.ext_pure _
    · exact DecM.ext_panicOp

theorem ext_read_operands (mode : Mode) (ops : List (Option OperandDefinition))
    (buffer : InstructionBuffer) : (read_operands mode ops buffer).Ext := by
  induction ops with
  | nil =>
    unfold read_operands
    exact DecM.ext_pure _
  | cons o rest ih =>
    cases o with
    | none =>
      unfold read_operands
      exact ih
    | some op_def =>
      unfold read_operands
      simp only [DecM.monad_bind_eq, DecM.monad_pure_eq]
      exact DecM.ext_bind (ext_read_operand mode op_def buffer) fun _ =>
        DecM.ext_bind ih fun _ => DecM.ext_pure _

theorem ext_construct_instruction (idef : InstructionDefinition) (buffer : InstructionBuffer)
    (operands : List Operand) : (construct_instruction idef buffer operands).Ext :=
  DecM.ext_panicOp

theorem ext_read_modrm_sib (addr_mode : Mode) (reg_ext index_ext b_ext : Nat)
    (buffer : InstructionBuffer) :
    (read_modrm_sib addr_mode reg_ext index_ext b_ext buffer).Ext := by
  unfold read_modrm_sib
  simp only [DecM.monad_bind_eq, DecM.monad_pure_eq]
  repeat' first
  | apply DecM.ext_bind
  | exact DecM.ext_pure _
  | exact DecM.ext_expect_byte
  | split
  | intro a

theorem extRes_vex2_arm (mode : Mode) (st : PrefixState) (rest t : ByteStream)
    (ih : ∀ (r : ByteStream) (st' : PrefixState), r.length < rest.length + 1 →
      ExtRes (read_prefixes mode st' r)
        (read_prefixes mode st' (r ++ ByteItem.readFail :: t)) t) :
    ExtRes
      (match rest with
       | [] => (RunResult.err InstructionDecodingError.PartialInstruction, [])
       | ByteItem.readFail :: r => (RunResult.err InstructionDecodingError.ReadError, r)
       | ByteItem.byte data :: r => read_prefixes mode (vex2_update mode st data) r)
      (match rest ++ ByteItem.readFail :: t with
       | [] => (RunResult.err InstructionDecodingError.PartialInstruction, [])
       | ByteItem.readFail :: r => (RunResult.err InstructionDecodingError.ReadError, r)
       | ByteItem.byte data :: r => read_prefixes mode (vex2_update mode st data) r) t := by
  rcases rest with _ | ⟨d | _, r⟩
  · exact extRes_probe [] t
  · simp only [List.cons_append]
    exact ih r _ (by simp only [List.length_cons]; omega)
  · exact extRes_readErr r t

theorem extRes_vex3_arm (mode : Mode) (st : PrefixState) (rest t : ByteStream)
    (ih : ∀ (r : ByteStream) (st' : PrefixState), r.length < rest.length + 1 →
      ExtRes (read_prefixes mode st' r)
        (read_prefixes mode st' (r ++ ByteItem.readFail :: t)) t) :
    ExtRes
      (match rest with
       | [] => (RunResult.err InstructionDecodingError.PartialInstruction, [])
       | ByteItem.readFail :: r => (RunResult.err InstructionDecodingError.ReadError, r)
       | ByteItem.byte data1 :: r1 =>
         match r1 with
         | [] => (RunResult.err InstructionDecodingError.PartialInstruction, [])
         | ByteItem.readFail :: r => (RunResult.err InstructionDecodingError.ReadError, r)
         | ByteItem.byte data2 :: r =>
           match vex3_update mode st data1 data2 with
           | Except.ok st' => read_prefixes mode st' r
           | Except.error e => (RunResult.err e, r))
      (match rest ++ ByteItem.readFail :: t with
       | [] => (RunResult.err InstructionDecodingError.PartialInstruction, [])
       | ByteItem.readFail :: r => (RunResult.err InstructionDecodingError.ReadError, r)
       | ByteItem.byte data1 :: r1 =>
         match r1 with
         | [] => (RunResult.err InstructionDecodingError.PartialInstruction, [])
         | ByteItem.readFail :: r => (RunResult.err InstructionDecodingError.ReadError, r)
         | ByteItem.byte data2 :: r =>
           match vex3_update mode st data1 data2 with
           | Except.ok st' => read_prefixes mode st' r
           | Except.error e => (RunResult.err e, r)) t := by
  rcases rest with _ | ⟨d1 | _, r1⟩
  · exact extRes_probe [] t
  · simp only [List.cons_append]
    rcases r1 with _ | ⟨d2 | _, r⟩
    · exact extRes_probe [] t
    · simp only [List.cons_append]
      rcases hv : vex3_update mode st d1 d2 with e | st'
      · exact extRes_err_invalid (vex3_update_error hv) r t
      · exact ih r st' (by simp only [List.length_cons]; omega)
    · exact extRes_readErr r t
  · exact extRes_readErr r1 t

theorem extRes_evex_arm (mode : Mode) (st : PrefixState) (rest t : ByteStream)
    (ih : ∀ (r : ByteStream) (st' : PrefixState), r.length < rest.length + 1 →
      ExtRes (read_prefixes mode st' r)
        (read_prefixes mode st' (r ++ ByteItem.readFail :: t)) t) :
    ExtRes
      (match rest with
       | [] => (RunResult.err InstructionDecodingError.PartialInstruction, [])
       | ByteItem.readFail :: r => (RunResult.err InstructionDecodingError.ReadError, r)
       | ByteItem.byte data1 :: r1 =>
         match r1 with
         | [] => (RunResult.err InstructionDecodingError.PartialInstruction, [])
         | ByteItem.readFail :: r => (RunResult.err InstructionDecodingError.ReadError, r)
         | ByteItem.byte data2 :: r2 =>
           match r2 with
           | [] => (RunResult.err InstructionDecodingError.PartialInstruction, [])
           | ByteItem.readFail :: r => (RunResult.err InstructionDecodingError.ReadError, r)
           | ByteItem.byte data3 :: r =>
             match evex_update mode st data1 data2 data3 with
             | Except.ok st' => read_prefixes mode st' r
             | Except.error e => (RunResult.err e, r))
      (match rest ++ ByteItem.readFail :: t with
       | [] => (RunResult.err InstructionDecodingError.PartialInstruction, [])
       | ByteItem.readFail :: r => (RunResult.err InstructionDecodingError.ReadError, r)
       | ByteItem.byte data1 :: r1 =>
         match r1 with
         | [] => (RunResult.err InstructionDecodingError.PartialInstruction, [])
         | ByteItem.readFail :: r => (RunResult.err InstructionDecodingError.ReadError, r)
         | ByteItem.byte data2 :: r2 =>
           match r2 with
           | [] => (RunResult.err InstructionDecodingError.PartialInstruction, [])
           | ByteItem.readFail :: r => (RunResult.err InstructionDecodingError.ReadError, r)
           | ByteItem.byte data3 :: r =>
             match evex_update mode st data1 data2 data3 with
             | Except.ok st' => read_prefixes mode st' r
             | Except.error e => (RunResult.err e, r)) t := by
  rcases rest with _ | ⟨d1 | _, r1⟩
  · exact extRes_probe [] t
  · simp only [List.cons_append]
    rcases r1 with _ | ⟨d2 | _, r2⟩
    · exact extRes_probe [] t
    · simp only [List.cons_append]
      rcases r2 with _ | ⟨d3 | _, r⟩
      · exact extRes_probe [] t
      · simp only [List.cons_append]
        rcases hv : evex_update mode st d1 d2 d3 with e | st'
        · exact extRes_err_invalid (evex_update_error hv) r t
        · exact ih r st' (by simp only [List.length_cons]; omega)
      · exact extRes_readErr r t
    · exact extRes_readErr r2 t
  · exact extRes_readErr r1 t

set_option maxHeartbeats 2000000 in
theorem ext_read_prefixes_len (mode : Mode) :
    ∀ (n : Nat) (s t : ByteStream) (st : PrefixState), s.length < n →
    ExtRes (read_prefixes mode st s)
      (read_prefixes mode st (s ++ ByteItem.readFail :: t)) t := by
  intro n
  induction n with
  | zero => intro s t st h; exact absurd h (Nat.not_lt_zero _)
  | succ n ih =>
    intro s t st hlen
    rcases s with _ | ⟨b | _, rest⟩
    · exact extRes_probe [] t
    · simp only [List.cons_append]
      rw [read_prefixes_cons, read_prefixes_cons]
      repeat' first
        | apply extRes_ite
        | intro y
        | exact extRes_ok _ _ _
        | exact extRes_vex2_arm mode st rest t (fun r st' h => ih r t st' (by
            simp only [List.length_cons] at hlen h ⊢
            omega))
        | exact extRes_vex3_arm mode st rest t (fun r st' h => ih r t st' (by
            simp only [List.length_cons] at hlen h ⊢
            omega))
        | exact extRes_evex_arm mode st rest t (fun r st' h => ih r t st' (by
            simp only [List.length_cons] at hlen h ⊢
            omega))
        | exact ih _ _ _ (by
            simp only [List.length_cons] at hlen ⊢
            omega)
    · exact extRes_readErr rest t

theorem ext_read_prefixes (mode : Mode) (st : PrefixState) :
    DecM.Ext (read_prefixes mode st) := fun s t =>
  ext_read_prefixes_len mode (s.length + 1) s t st (Nat.lt_succ_self _)

theorem ext_read_body (find : FindFn) (mode : Mode) : (read_body find mode).Ext := by
  unfold read_body
  simp only [DecM.monad_bind_eq, DecM.monad_pure_eq]
  refine DecM.ext_bind (ext_read_prefixes mode PrefixState.init) (fun pr => ?_)
  refine DecM.ext_bind (DecM.ext_unwrapOrPanic _) (fun addr_mode => ?_)
  repeat' first
  | exact DecM.ext_pure _
  | exact DecM.ext_panicOp
  | exact DecM.ext_expect_byte
  | exact ext_read_modrm_sib _ _ _ _ _
  | exact ext_read_operands _ _ _
  | exact ext_construct_instruction _ _ _
  | exact DecM.ext_unwrapOrPanic _
  | exact DecM.ext_throw (by decide)
  | apply DecM.ext_bind
  | split
  | intro x

/-- C1: read returns EndOfStream iff the initial peek observes
    end-of-stream (the stream is empty, no byte of the instruction
    consumed); and it returns PartialInstruction iff the stream ran out
    mid-instruction: the stream is nonempty (so at least one byte of the
    current instruction was consumed) and the run reads past its end -
    formalised by a sentinel probe: with one extra read-failure item
    appended, the very same run consumes the whole original stream and
    stops on the sentinel with ReadError, leaving nothing unread.  A run
    that never attempts to read past the end leaves the sentinel in place
    instead.  Moreover PartialInstruction always leaves an empty remaining
    stream. -/
theorem c1_read_end_of_stream_discrimination (find : FindFn) (mode : Mode) (s : ByteStream) :
    ((InstructionReader.read find mode s).1 =
        RunResult.err InstructionDecodingError.EndOfStream ↔ s = []) ∧
    ((InstructionReader.read find mode s).1 =
        RunResult.err InstructionDecodingError.PartialInstruction ↔
      (s ≠ [] ∧
        InstructionReader.read find mode (s ++ [ByteItem.readFail]) =
          (RunResult.err InstructionDecodingError.ReadError, []))) ∧
    ((InstructionReader.read find mode s).1 =
        RunResult.err InstructionDecodingError.PartialInstruction →
      (InstructionReader.read find mode s).2 = []) := by
  rcases s with _ | ⟨hd, rest⟩
  · refine ⟨⟨fun _ => rfl, fun _ => by simp [InstructionReader.read]⟩, ⟨?_, ?_⟩, ?_⟩
    · intro hp
      simp [InstructionReader.read] at hp
    · rintro ⟨hne, _⟩
      exact absurd rfl hne
    · intro hp
      simp [InstructionReader.read] at hp
  · have hwf := wf_read_body find mode (hd :: rest)
    have hext := ext_read_body find mode (hd :: rest) []
    have hr : InstructionReader.read find mode (hd :: rest) =
        read_body find mode (hd :: rest) := by
      simp [InstructionReader.read]
    have hr2 : InstructionReader.read find mode ((hd :: rest) ++ [ByteItem.readFail]) =
        read_body find mode ((hd :: rest) ++ [ByteItem.readFail]) := by
      simp [InstructionReader.read]
    rw [hr, hr2]
    refine ⟨⟨fun hc => absurd hc hwf.ne_eos, fun hc => by cases hc⟩, ⟨?_, ?_⟩,
      fun hp => hwf.partial_nil hp⟩
    · intro hp
      refine ⟨by simp, ?_⟩
      rcases hrun : read_body find mode (hd :: rest) with ⟨r, rem⟩
      rw [hrun] at hext hp
      simp only at hp
      subst hp
      exact hext
    · rintro ⟨hne, hprobe⟩
      rcases hrun : read_body find mode (hd :: rest) with ⟨r, rem⟩
      rw [hrun] at hext
      try rw [hrun]
      cases r with
      | ok a =>
        have h2 : read_body find mode ((hd :: rest) ++ [ByteItem.readFail]) =
            (RunResult.ok a, rem ++ [ByteItem.readFail]) := hext
        rw [h2] at hprobe
        exact absurd (congrArg Prod.fst hprobe) (by simp)
      | err e =>
        cases e with
        | PartialInstruction => rfl
        | EndOfStream =>
          have h2 : read_body find mode ((hd :: rest) ++ [ByteItem.readFail]) =
              (RunResult.err InstructionDecodingError.EndOfStream,
                rem ++ [ByteItem.readFail]) := hext
          rw [h2] at hprobe
          exact absurd (congrArg Prod.fst hprobe) (by simp)
        | InvalidInstruction =>
          have h2 : read_body find mode ((hd :: rest) ++ [ByteItem.readFail]) =
              (RunResult.err InstructionDecodingError.InvalidInstruction,
                rem ++ [ByteItem.readFail]) := hext
          rw [h2] at hprobe
          exact absurd (congrArg Prod.fst hprobe) (by simp)
        | UnknownOpcode =>
          have h2 : read_body find mode ((hd :: rest) ++ [ByteItem.readFail]) =
              (RunResult.err InstructionDecodingError.UnknownOpcode,
                rem ++ [ByteItem.readFail]) := hext
          rw [h2] at hprobe
          exact absurd (congrArg Prod.fst hprobe) (by simp)
        | ReadError =>
          have h2 : read_body find mode ((hd :: rest) ++ [ByteItem.readFail]) =
              (RunResult.err InstructionDecodingError.ReadError,
                rem ++ [ByteItem.readFail]) := hext
          rw [h2] at hprobe
          exact absurd (congrArg Prod.snd hprobe) (by simp)
      | panicked =>
        have h2 : read_body find mode ((hd :: rest) ++ [ByteItem.readFail]) =
            (RunResult.panicked, rem ++ [ByteItem.readFail]) := hext
        rw [h2] at hprobe
        exact absurd (congrArg Prod.fst hprobe) (by simp)

/-- Witness for C1 at concrete inputs, derived through the theorem: the
    empty stream yields EndOfStream, and a lone REX prefix 0x48 in long
    mode (a truncated instruction) yields PartialInstruction - exhibited
    via the probe direction with the probe run evaluated concretely. -/
theorem c1_read_end_of_stream_discrimination_witness :
    ((InstructionReader.read find_none Mode.Long []).1 =
        RunResult.err InstructionDecodingError.EndOfStream) ∧
    (InstructionReader.read find_none Mode.Long [ByteItem.byte 0x48]).1 =
      RunResult.err InstructionDecodingError.PartialInstruction := by
  constructor
  · exact ((c1_read_end_of_stream_discrimination find_none Mode.Long []).1).mpr rfl
  · exact ((c1_read_end_of_stream_discrimination find_none Mode.Long [ByteItem.byte 0x48]).2.1).mpr
      ⟨by decide, by decide⟩


/-- C2: the claim says read is total (an Instruction or one of the five
    errors, never a panic).  In the source every successful decode reaches
    the Ok(Instruction { .. }) expression whose rounding_mode, merge_mode,
    sae, mask and broadcast fields are unimplemented!(), so it panics: on
    the repository's own XSAVEC test vector 0F C7 23 in long mode
    (src/src/test/instruction_tests/instr_xsavec.rs expects
    XSAVEC [RBX]), read panics instead of returning an instruction. -/
theorem c2_read_panics_on_successful_decode :
    InstructionReader.read find_xsavec Mode.Long
      [ByteItem.byte 0x0F, ByteItem.byte 0xC7, ByteItem.byte 0x23] =
      (RunResult.panicked, []) := by decide

/-- C3: the REX extension bits are merged into the wrong ModR/M fields on
    the no-SIB path (decoding.rs lines 181-182): with only REX.B set
    (b_ext = 8) and ModR/M byte C0 (mod=11, reg=0, rm=0) the buffer ends
    with mod_rm_reg = 8 and mod_rm_rm = 0, and with only REX.X set
    (index_ext = 8) it ends with mod_rm_rm = 8 — the claim (and the
    source's own comments on lines 41-42) require mod_rm_reg = 0,
    mod_rm_rm = 8 in the first case and mod_rm_rm = 0 in the second. -/
theorem c3_rex_extension_bits_swapped :
    read_modrm_sib Mode.Long 0 0 8
      { InstructionBuffer.init with composite_prefix := some CompositePrefix.Rex }
      [ByteItem.byte 0xC0] =
      (RunResult.ok { InstructionBuffer.init with
        composite_prefix := some CompositePrefix.Rex,
        mod_rm_mod := some 3, mod_rm_reg := some 8, mod_rm_rm := some 0 }, []) ∧
    read_modrm_sib Mode.Long 0 8 0
      { InstructionBuffer.init with composite_prefix := some CompositePrefix.Rex }
      [ByteItem.byte 0xC0] =
      (RunResult.ok { InstructionBuffer.init with
        composite_prefix := some CompositePrefix.Rex,
        mod_rm_mod := some 3, mod_rm_reg := some 0, mod_rm_rm := some 8 }, []) := by decide

/-- C4: has_sib (decoding.rs lines 411-414) ignores the mod field, so a
    SIB byte is consumed even when mod=11 (register direct); on the
    repository's own KXNORQ test vector C4 E1 D4 46 E4 in protected mode
    (src/src/test/instruction_tests/instr_kxnorq.rs expects
    KXNORQ K4, K5, K4; ModR/M E4 has mod=11, rm=100) read tries to read a
    SIB byte past the end of the instruction and fails with
    PartialInstruction. -/
theorem c4_sib_consumed_despite_register_direct :
    has_sib Mode.Protected
      { InstructionBuffer.init with mod_rm_mod := some 3, mod_rm_rm := some 4 } = true ∧
    InstructionReader.read find_kxnorq Mode.Protected
      [ByteItem.byte 0xC4, ByteItem.byte 0xE1, ByteItem.byte 0xD4, ByteItem.byte 0x46,
       ByteItem.byte 0xE4] =
      (RunResult.err InstructionDecodingError.PartialInstruction, []) := by decide

/-- C5: the VEX2 arm stores vex_operand = (b >> 3) & 0xF without the
    one's-complement inversion the claim (and Intel, and the repository's
    own KANDB test C5 F5 41 E5, which expects the middle operand K1)
    require: for payload byte F5 the code stores 14 while the inverted
    value is 1. -/
theorem c5_vex_vvvv_not_inverted :
    (vex2_update Mode.Protected PrefixState.init 0xF5).buffer.vex_operand = some 14 ∧
    ((0xF5 ^^^ 0xFF) >>> 3) &&& 0xF = 1 ∧
    (vex2_update Mode.Protected PrefixState.init 0xF5).buffer.vex_operand ≠
      some (((0xF5 ^^^ 0xFF) >>> 3) &&& 0xF) := by decide

/-- C6 counterexample: a VEX3 prefix with map_select = 0 (bytes C4 60 00)
    does not produce InvalidInstruction as the claim demands; the arm for
    map_select 0 is a silent no-op (decoding.rs line 90) and read runs off
    the end of the stream instead. -/
theorem c6_counterexample_map_select_zero :
    InstructionReader.read find_none Mode.Long
      [ByteItem.byte 0xC4, ByteItem.byte 0x60, ByteItem.byte 0x00] =
      (RunResult.err InstructionDecodingError.PartialInstruction, []) ∧
    (InstructionReader.read find_none Mode.Long
      [ByteItem.byte 0xC4, ByteItem.byte 0x60, ByteItem.byte 0x00]).1 ≠
      RunResult.err InstructionDecodingError.InvalidInstruction := by decide

/-- C6 amended: a VEX3 prefix yields InvalidInstruction exactly when its
    5-bit map_select is 4..31; map_select = 0 is accepted silently.  The
    EVEX arm reads its map_select from only the low two bits of the first
    payload byte (decoding.rs line 115), so it never yields
    InvalidInstruction at all. -/
theorem c6_amended_map_select (mode : Mode) (st : PrefixState) (d1 d2 d3 : Nat) :
    (vex3_update mode st d1 d2 = Except.error InstructionDecodingError.InvalidInstruction ↔
      4 ≤ d1 &&& 0x1F) ∧
    (∀ e : InstructionDecodingError, evex_update mode st d1 d2 d3 ≠ Except.error e) := by
  constructor
  · rcases h31 : d1 &&& 0x1F with _ | _ | _ | _ | k <;>
      (unfold vex3_update; rw [h31]; simp)
  · intro e hc
    have hle : d1 &&& 0x3 ≤ 0x3 := Nat.and_le_right
    rcases h3 : d1 &&& 0x3 with _ | _ | _ | _ | k
    · unfold evex_update at hc; rw [h3] at hc; simp at hc
    · unfold evex_update at hc; rw [h3] at hc; simp at hc
    · unfold evex_update at hc; rw [h3] at hc; simp at hc
    · unfold evex_update at hc; rw [h3] at hc; simp at hc
    · rw [h3] at hle; omega

/-- One step of the prefix loop on a VEX2 prefix: the 0xC5 byte and its
    payload byte are consumed and the loop continues with the VEX2-updated
    state, in every mode. -/
theorem read_prefixes_vex2_step (mode : Mode) (st : PrefixState) (d : Nat)
    (rest : ByteStream) :
    read_prefixes mode st (ByteItem.byte 0xC5 :: ByteItem.byte d :: rest) =
      read_prefixes mode (vex2_update mode st d) rest := by
  rcases rest with _ | ⟨d2 | _, rest2⟩
  · rw [read_prefixes.eq_5]
    rfl
  · rcases rest2 with _ | ⟨d3 | _, rest3⟩
    · rw [read_prefixes.eq_7]
      rfl
    · rw [read_prefixes.eq_9]
      rfl
    · rw [read_prefixes.eq_8]
      rfl
  · rw [read_prefixes.eq_6]
    rfl

/-- One step of the prefix loop on a VEX3 prefix: the 0xC4 byte and its
    two payload bytes are consumed; the loop continues with the
    VEX3-updated state, or stops with the VEX3 error, in every mode. -/
theorem read_prefixes_vex3_step (mode : Mode) (st : PrefixState) (d1 d2 : Nat)
    (rest : ByteStream) :
    read_prefixes mode st
        (ByteItem.byte 0xC4 :: ByteItem.byte d1 :: ByteItem.byte d2 :: rest) =
      (match vex3_update mode st d1 d2 with
       | Except.ok st' => read_prefixes mode st' rest
       | Except.error e => (RunResult.err e, rest)) := by
  rcases rest with _ | ⟨d3 | _, rest3⟩
  · rw [read_prefixes.eq_7]
    rfl
  · rw [read_prefixes.eq_9]
    rfl
  · rw [read_prefixes.eq_8]
    rfl

/-- One step of the prefix loop on an EVEX prefix: the 0x62 byte and its
    three payload bytes are consumed; the loop continues with the
    EVEX-updated state, or stops with the EVEX error, in every mode. -/
theorem read_prefixes_evex_step (mode : Mode) (st : PrefixState) (d1 d2 d3 : Nat)
    (rest : ByteStream) :
    read_prefixes mode st
        (ByteItem.byte 0x62 :: ByteItem.byte d1 :: ByteItem.byte d2 :: ByteItem.byte d3 ::
          rest) =
      (match evex_update mode st d1 d2 d3 with
       | Except.ok st' => read_prefixes mode st' rest
       | Except.error e => (RunResult.err e, rest)) := by
  rw [read_prefixes.eq_9]
  rfl

/-- C7 counterexample: a REX prefix (0x40) followed by a VEX2 prefix
    (0xC5 F5) is accepted by the prefix loop; read does not return
    InvalidInstruction (it runs off the truncated stream and reports
    PartialInstruction instead). -/
theorem c7_counterexample_rex_then_vex :
    InstructionReader.read find_none Mode.Long
      [ByteItem.byte 0x40, ByteItem.byte 0xC5, ByteItem.byte 0xF5] =
      (RunResult.err InstructionDecodingError.PartialInstruction, []) ∧
    (InstructionReader.read find_none Mode.Long
      [ByteItem.byte 0x40, ByteItem.byte 0xC5, ByteItem.byte 0xF5]).1 ≠
      RunResult.err InstructionDecodingError.InvalidInstruction := by decide


/-- The VEX3 payload updates preserve the composite-prefix field of the
    buffer they are applied to. -/
theorem vex3_finish_composite (mode : Mode) (st : PrefixState) (d1 d2 : Nat)
    (buf : InstructionBuffer) :
    InstructionBuffer.composite_prefix (PrefixState.buffer (vex3_finish mode st d1 d2 buf)) =
      InstructionBuffer.composite_prefix buf := by
  rcases h2 : d2 &&& 0x3 with _ | _ | _ | _ | k <;> (unfold vex3_finish; rw [h2]; try rfl)

/-- The EVEX payload updates preserve the composite-prefix field of the
    buffer they are applied to. -/
theorem evex_finish_composite (mode : Mode) (st : PrefixState) (d1 d2 d3 : Nat)
    (buf : InstructionBuffer) :
    InstructionBuffer.composite_prefix (PrefixState.buffer (evex_finish mode st d1 d2 d3 buf)) =
      InstructionBuffer.composite_prefix buf := by
  rcases h2 : d2 &&& 0x3 with _ | _ | _ | _ | k <;> (unfold evex_finish; rw [h2]; try rfl)

/-- The prefix-loop state right after a lone REX prefix 0x40. -/
def rexSt : PrefixState := rex_update PrefixState.init 0x40

/-- C7 amended: after a REX prefix has been latched (composite_prefix is
    Rex), a following VEX2, VEX3 or EVEX prefix byte is processed by its
    ordinary arm of the prefix loop, in every mode: the step equations
    hold unchanged, every accepting arm overwrites composite_prefix from
    Rex to Vex (VEX2, VEX3) or Evex (EVEX), and no error is raised for the
    REX-then-VEX combination itself - VEX2 and EVEX never error, and VEX3
    errors exactly with InvalidInstruction for an out-of-range map_select
    (4..31 from the payload byte), independent of the latched REX. -/
theorem c7_amended_rex_then_vex_accepted (mode : Mode) (st : PrefixState)
    (d d1 d2 e1 e2 e3 : Nat) (rest : ByteStream)
    (h : InstructionBuffer.composite_prefix (PrefixState.buffer st) =
      some CompositePrefix.Rex) :
    (read_prefixes mode st (ByteItem.byte 0xC5 :: ByteItem.byte d :: rest) =
        read_prefixes mode (vex2_update mode st d) rest ∧
      InstructionBuffer.composite_prefix (PrefixState.buffer (vex2_update mode st d)) =
        some CompositePrefix.Vex) ∧
    (read_prefixes mode st
          (ByteItem.byte 0xC4 :: ByteItem.byte d1 :: ByteItem.byte d2 :: rest) =
        (match vex3_update mode st d1 d2 with
         | Except.ok st' => read_prefixes mode st' rest
         | Except.error e => (RunResult.err e, rest)) ∧
      (∀ st', vex3_update mode st d1 d2 = Except.ok st' →
        InstructionBuffer.composite_prefix (PrefixState.buffer st') =
          some CompositePrefix.Vex) ∧
      (∀ e, vex3_update mode st d1 d2 = Except.error e →
        e = InstructionDecodingError.InvalidInstruction ∧ 4 ≤ d1 &&& 0x1F)) ∧
    (read_prefixes mode st
          (ByteItem.byte 0x62 :: ByteItem.byte e1 :: ByteItem.byte e2 ::
            ByteItem.byte e3 :: rest) =
        (match evex_update mode st e1 e2 e3 with
         | Except.ok st' => read_prefixes mode st' rest
         | Except.error e => (RunResult.err e, rest)) ∧
      (∀ st', evex_update mode st e1 e2 e3 = Except.ok st' →
        InstructionBuffer.composite_prefix (PrefixState.buffer st') =
          some CompositePrefix.Evex) ∧
      (∀ e, evex_update mode st e1 e2 e3 ≠ Except.error e)) := by
  refine ⟨⟨read_prefixes_vex2_step mode st d rest, ?_⟩,
    ⟨read_prefixes_vex3_step mode st d1 d2 rest, ?_, ?_⟩,
    ⟨read_prefixes_evex_step mode st e1 e2 e3 rest, ?_, ?_⟩⟩
  · rcases h3 : d &&& 0x3 with _ | _ | _ | _ | k <;> (unfold vex2_update; rw [h3]; try rfl)
  · intro st' hok
    rcases h1 : d1 &&& 0x1F with _ | _ | _ | _ | k
    · unfold vex3_update at hok
      rw [h1] at hok
      simp only [Except.ok.injEq] at hok
      rw [← hok, vex3_finish_composite]
      try rfl
    · unfold vex3_update at hok
      rw [h1] at hok
      simp only [Except.ok.injEq] at hok
      rw [← hok, vex3_finish_composite]
      try rfl
    · unfold vex3_update at hok
      rw [h1] at hok
      simp only [Except.ok.injEq] at hok
      rw [← hok, vex3_finish_composite]
      try rfl
    · unfold vex3_update at hok
      rw [h1] at hok
      simp only [Except.ok.injEq] at hok
      rw [← hok, vex3_finish_composite]
      try rfl
    · unfold vex3_update at hok
      rw [h1] at hok
      simp at hok
  · intro e he
    rcases h1 : d1 &&& 0x1F with _ | _ | _ | _ | k
    · unfold vex3_update at he
      rw [h1] at he
      simp at he
    · unfold vex3_update at he
      rw [h1] at he
      simp at he
    · unfold vex3_update at he
      rw [h1] at he
      simp at he
    · unfold vex3_update at he
      rw [h1] at he
      simp at he
    · unfold vex3_update at he
      rw [h1] at he
      simp only [Except.error.injEq] at he
      refine ⟨he.symm, ?_⟩
      omega
  · intro st' hok
    have hle : e1 &&& 0x3 ≤ 0x3 := Nat.and_le_right
    rcases h1 : e1 &&& 0x3 with _ | _ | _ | _ | k
    · unfold evex_update at hok
      rw [h1] at hok
      simp only [Except.ok.injEq] at hok
      rw [← hok, evex_finish_composite]
      try rfl
    · unfold evex_update at hok
      rw [h1] at hok
      simp only [Except.ok.injEq] at hok
      rw [← hok, evex_finish_composite]
      try rfl
    · unfold evex_update at hok
      rw [h1] at hok
      simp only [Except.ok.injEq] at hok
      rw [← hok, evex_finish_composite]
      try rfl
    · unfold evex_update at hok
      rw [h1] at hok
      simp only [Except.ok.injEq] at hok
      rw [← hok, evex_finish_composite]
      try rfl
    · rw [h1] at hle
      omega
  · intro e he
    have hle : e1 &&& 0x3 ≤ 0x3 := Nat.and_le_right
    rcases h1 : e1 &&& 0x3 with _ | _ | _ | _ | k
    · unfold evex_update at he
      rw [h1] at he
      simp at he
    · unfold evex_update at he
      rw [h1] at he
      simp at he
    · unfold evex_update at he
      rw [h1] at he
      simp at he
    · unfold evex_update at he
      rw [h1] at he
      simp at he
    · rw [h1] at hle
      omega

/-- Witness for C7 amended, at the concrete state after a REX prefix 0x40
    and concrete VEX2/VEX3/EVEX payload bytes: composite_prefix moves from
    Rex to Vex on the VEX2 payload F5, and the VEX3 payloads 61 D4 and
    EVEX payloads 01 05 08 are accepted with composite_prefix Vex and Evex
    respectively. -/
theorem c7_amended_rex_then_vex_accepted_witness :
    InstructionBuffer.composite_prefix (PrefixState.buffer rexSt) =
      some CompositePrefix.Rex ∧
    InstructionBuffer.composite_prefix (PrefixState.buffer (vex2_update Mode.Long rexSt 0xF5)) =
      some CompositePrefix.Vex ∧
    (∃ st', vex3_update Mode.Long rexSt 0x61 0xD4 = Except.ok st' ∧
      InstructionBuffer.composite_prefix (PrefixState.buffer st') =
        some CompositePrefix.Vex) ∧
    (∃ st', evex_update Mode.Long rexSt 0x01 0x05 0x08 = Except.ok st' ∧
      InstructionBuffer.composite_prefix (PrefixState.buffer st') =
        some CompositePrefix.Evex) := by
  have h := c7_amended_rex_then_vex_accepted Mode.Long rexSt 0xF5 0x61 0xD4 0x01 0x05 0x08 [] (by decide)
  refine ⟨by decide, h.1.2, ?_, ?_⟩
  · rcases hv : vex3_update Mode.Long rexSt 0x61 0xD4 with e | st'
    · exact absurd (h.2.1.2.2 e hv).2 (by decide)
    · exact ⟨st', rfl, h.2.1.2.1 st' hv⟩
  · rcases hv : evex_update Mode.Long rexSt 0x01 0x05 0x08 with e | st'
    · exact absurd hv (h.2.2.2.2 e)
    · exact ⟨st', rfl, h.2.2.2.1 st' hv⟩

/-- C8: with ModR/M mod=00 and rm=101 in 32/64-bit address mode, rm_helper
    consumes a 32-bit little-endian displacement and yields an Offset
    (RIP-relative) operand when the effective address size is 64 bits and a
    Memory (absolute) operand when it is 32 bits; get_address_size gives
    64 bits exactly for long mode without the 0x67 prefix, and 32 bits for
    long mode with 0x67 or protected mode without it. -/
theorem c8_mod00_rm101_rip_relative (mode : Mode) (buffer : InstructionBuffer)
    (op_def : OperandDefinition) (conv_proc : Nat → Option Reg)
    (d0 d1 d2 d3 : Nat) (rest : ByteStream)
    (hmod : buffer.mod_rm_mod = some 0) (hrm : buffer.mod_rm_rm = some 5) :
    (get_address_size mode buffer = OperandSize.Qword →
      rm_helper mode buffer op_def conv_proc
        (ByteItem.byte d0 :: ByteItem.byte d1 :: ByteItem.byte d2 :: ByteItem.byte d3 ::
          rest) =
        (RunResult.ok (Operand.Offset (d0 ||| (d1 <<< 8) ||| (d2 <<< 16) ||| (d3 <<< 24))
          (some (get_operand_size mode op_def buffer)) buffer.get_segment_reg), rest)) ∧
    (get_address_size mode buffer = OperandSize.Dword →
      rm_helper mode buffer op_def conv_proc
        (ByteItem.byte d0 :: ByteItem.byte d1 :: ByteItem.byte d2 :: ByteItem.byte d3 ::
          rest) =
        (RunResult.ok (Operand.Memory (d0 ||| (d1 <<< 8) ||| (d2 <<< 16) ||| (d3 <<< 24))
          (some (get_operand_size mode op_def buffer)) buffer.get_segment_reg), rest)) ∧
    (mode = Mode.Long ∧ buffer.address_size_prefix = false →
      get_address_size mode buffer = OperandSize.Qword) ∧
    (mode = Mode.Long ∧ buffer.address_size_prefix = true →
      get_address_size mode buffer = OperandSize.Dword) ∧
    (mode = Mode.Protected ∧ buffer.address_size_prefix = false →
      get_address_size mode buffer = OperandSize.Dword) := by
  refine ⟨?_, ?_, ?_, ?_, ?_⟩
  · intro h
    unfold rm_helper
    simp [DecM.monad_bind_eq, DecM.monad_pure_eq, hrm, hmod, h, DecM.ofOption, DecM.bind,
      DecM.pure, read_disp32, expect_byte]
  · intro h
    unfold rm_helper
    simp [DecM.monad_bind_eq, DecM.monad_pure_eq, hrm, hmod, h, DecM.ofOption, DecM.bind,
      DecM.pure, read_disp32, expect_byte]
  · rintro ⟨h1, h2⟩
    subst h1
    simp [get_address_size, h2]
  · rintro ⟨h1, h2⟩
    subst h1
    simp [get_address_size, h2]
  · rintro ⟨h1, h2⟩
    subst h1
    simp [get_address_size, h2]

/-- A buffer whose ModR/M stage latched mod=00, rm=101 (byte 0x25 with no
    prefix extensions). -/
def c8buf : InstructionBuffer :=
  { InstructionBuffer.init with mod_rm_mod := some 0, mod_rm_rm := some 5 }

/-- An unsized memory operand slot (the XSAVEC slot shape). -/
def mem_opdef : OperandDefinition :=
  { encoding := OperandEncoding.ModRmRm, op_type := OperandType.Mem,
    size := OperandSize.Unsized }

/-- Witness for C8 at concrete input: long mode without 0x67 and
    displacement bytes 78 56 34 12 produce the RIP-relative Offset with the
    little-endian value. -/
theorem c8_mod00_rm101_rip_relative_witness :
    rm_helper Mode.Long c8buf mem_opdef (fun _ => none)
      [ByteItem.byte 0x78, ByteItem.byte 0x56, ByteItem.byte 0x34, ByteItem.byte 0x12] =
      (RunResult.ok (Operand.Offset (0x78 ||| (0x56 <<< 8) ||| (0x34 <<< 16) ||| (0x12 <<< 24))
        (some (get_operand_size Mode.Long mem_opdef c8buf)) c8buf.get_segment_reg), []) :=
  (c8_mod00_rm101_rip_relative Mode.Long c8buf mem_opdef (fun _ => none)
    0x78 0x56 0x34 0x12 [] rfl rfl).1 rfl

/-- C9: in the SIB sub-machine with mod=00, the form selection happens on
    the merged index and base codes: the disp32-only base form is chosen
    exactly when the merged base code's low three bits are 101 (so r13,
    code 13, qualifies), and the no-index form is recognised only when the
    full merged index code equals 100 (so r12, merged code 12, remains a
    valid scaled index). -/
theorem c9_sib_form_selection_after_merge (mode : Mode) (buffer : InstructionBuffer)
    (op_def : OperandDefinition) (addr_size : OperandSize) (i b s0 : Nat) (sc : RegScale)
    (ri rb : Reg) (d0 d1 d2 d3 : Nat) (rest : ByteStream)
    (hmod : buffer.mod_rm_mod = some 0)
    (hs0 : buffer.sib_scale = some s0) (hsc : RegScale.from_sib_code s0 = some sc)
    (hi : buffer.sib_index = some i) (hb : buffer.sib_base = some b)
    (hri : Reg.from_code_general_sized i (has_rex buffer) addr_size = some ri)
    (hrb : Reg.from_code_general_sized b (has_rex buffer) addr_size = some rb) :
    (i = 0b100 → b &&& 0b111 = 0b101 →
      sib_helper mode buffer op_def addr_size
        (ByteItem.byte d0 :: ByteItem.byte d1 :: ByteItem.byte d2 :: ByteItem.byte d3 ::
          rest) =
        (RunResult.ok (Operand.Memory (d0 ||| (d1 <<< 8) ||| (d2 <<< 16) ||| (d3 <<< 24))
          (some (get_operand_size mode op_def buffer)) buffer.get_segment_reg), rest)) ∧
    (i = 0b100 → b &&& 0b111 ≠ 0b101 →
      sib_helper mode buffer op_def addr_size
        (ByteItem.byte d0 :: ByteItem.byte d1 :: ByteItem.byte d2 :: ByteItem.byte d3 ::
          rest) =
        (RunResult.ok (Operand.Indirect rb
          (some (get_operand_size mode op_def buffer)) buffer.get_segment_reg),
         ByteItem.byte d0 :: ByteItem.byte d1 :: ByteItem.byte d2 :: ByteItem.byte d3 ::
          rest)) ∧
    (i ≠ 0b100 → b &&& 0b111 = 0b101 →
      sib_helper mode buffer op_def addr_size
        (ByteItem.byte d0 :: ByteItem.byte d1 :: ByteItem.byte d2 :: ByteItem.byte d3 ::
          rest) =
        (RunResult.ok (Operand.IndirectScaledDisplaced ri sc
          (d0 ||| (d1 <<< 8) ||| (d2 <<< 16) ||| (d3 <<< 24))
          (some (get_operand_size mode op_def buffer)) buffer.get_segment_reg), rest)) ∧
    (i ≠ 0b100 → b &&& 0b111 ≠ 0b101 →
      sib_helper mode buffer op_def addr_size
        (ByteItem.byte d0 :: ByteItem.byte d1 :: ByteItem.byte d2 :: ByteItem.byte d3 ::
          rest) =
        (RunResult.ok (Operand.IndirectScaledIndexed rb ri sc
          (some (get_operand_size mode op_def buffer)) buffer.get_segment_reg),
         ByteItem.byte d0 :: ByteItem.byte d1 :: ByteItem.byte d2 :: ByteItem.byte d3 ::
          rest)) := by
  refine ⟨?_, ?_, ?_, ?_⟩ <;>
    (intro h1 h2
     try rw [h1] at hri
     unfold sib_helper
     simp [DecM.monad_bind_eq, DecM.monad_pure_eq, hmod, hs0, hsc, hi, hb, hri, hrb,
       h1, h2, DecM.ofOption, DecM.bind, DecM.pure, read_disp32, expect_byte, Option.bind])

/-- A buffer whose SIB stage latched mod=00, scale code 3 (factor 8),
    merged index code 12 (r12) and merged base code 13 (r13). -/
def c9buf : InstructionBuffer :=
  { InstructionBuffer.init with
    mod_rm_mod := some 0
    sib_scale := some 3
    sib_index := some 12
    sib_base := some 13 }

/-- Witness for C9 at concrete input: merged base 13 (r13, low bits 101)
    selects the disp32 form while merged index 12 (r12) stays a valid
    scaled index, producing [r12*8 + disp32]. -/
theorem c9_sib_form_selection_after_merge_witness :
    sib_helper Mode.Long c9buf mem_opdef OperandSize.Qword
      [ByteItem.byte 0x11, ByteItem.byte 0x22, ByteItem.byte 0x33, ByteItem.byte 0x44] =
      (RunResult.ok (Operand.IndirectScaledDisplaced Reg.R12 RegScale.Eight
        (0x11 ||| (0x22 <<< 8) ||| (0x33 <<< 16) ||| (0x44 <<< 24))
        (some (get_operand_size Mode.Long mem_opdef c9buf)) c9buf.get_segment_reg), []) :=
  ((c9_sib_form_selection_after_merge Mode.Long c9buf mem_opdef OperandSize.Qword
    12 13 3 RegScale.Eight Reg.R12 Reg.R13 0x11 0x22 0x33 0x44 []
    rfl rfl rfl rfl rfl rfl rfl).2.2.1 (by decide) (by decide))

/-- C10: in every mode, the bytes C5, C4 and 62 seen in prefix position
    are consumed as VEX2/VEX3/EVEX prefixes together with their 1, 2 or 3
    payload bytes and never terminate the prefix loop as opcode bytes;
    outside long mode the only difference is that the register-extension
    bits they supply are forced to 0 (for EVEX: left unchanged, its
    updates OR in 0). -/
theorem c10_vex_bytes_always_prefixes (mode : Mode) (st : PrefixState)
    (d1 d2 d3 : Nat) (rest : ByteStream) :
    (read_prefixes mode st (ByteItem.byte 0xC5 :: ByteItem.byte d1 :: rest) =
      read_prefixes mode (vex2_update mode st d1) rest) ∧
    (read_prefixes mode st
        (ByteItem.byte 0xC4 :: ByteItem.byte d1 :: ByteItem.byte d2 :: rest) =
      (match vex3_update mode st d1 d2 with
       | Except.ok st' => read_prefixes mode st' rest
       | Except.error e => (RunResult.err e, rest))) ∧
    (read_prefixes mode st
        (ByteItem.byte 0x62 :: ByteItem.byte d1 :: ByteItem.byte d2 :: ByteItem.byte d3 ::
          rest) =
      (match evex_update mode st d1 d2 d3 with
       | Except.ok st' => read_prefixes mode st' rest
       | Except.error e => (RunResult.err e, rest))) ∧
    (InstructionBuffer.composite_prefix (PrefixState.buffer (vex2_update mode st d1)) =
      some CompositePrefix.Vex) ∧
    (mode ≠ Mode.Long →
      (vex2_update mode st d1).reg_ext = 0 ∧
      (∀ st', vex3_update mode st d1 d2 = Except.ok st' →
        st'.reg_ext = 0 ∧ st'.index_ext = 0 ∧ st'.b_ext = 0) ∧
      (∀ st', evex_update mode st d1 d2 d3 = Except.ok st' →
        st'.reg_ext = st.reg_ext ∧ st'.index_ext = st.index_ext ∧ st'.b_ext = st.b_ext)) := by
  refine ⟨read_prefixes_vex2_step mode st d1 rest,
    read_prefixes_vex3_step mode st d1 d2 rest,
    read_prefixes_evex_step mode st d1 d2 d3 rest, ?_, ?_⟩
  · rcases h3 : d1 &&& 0x3 with _ | _ | _ | _ | k <;> (unfold vex2_update; rw [h3]; try rfl)
  · intro hm
    refine ⟨?_, ?_, ?_⟩
    · simp [vex2_update, hm]
    · intro st' h
      unfold vex3_update at h
      split at h <;> cases h <;> simp [vex3_finish, hm]
    · intro st' h
      unfold evex_update at h
      split at h <;> cases h <;> simp [evex_finish, hm]

/-- Witness for C10 in protected mode: the byte F5 as VEX2 payload yields
    extension bits 0, a VEX3 update yields extension bits 0, and an EVEX
    update leaves the extension bits of the initial state unchanged. -/
theorem c10_vex_bytes_always_prefixes_witness :
    Mode.Protected ≠ Mode.Long ∧
    ((vex2_update Mode.Protected PrefixState.init 0xF5).reg_ext = 0 ∧
      (∀ st', vex3_update Mode.Protected PrefixState.init 0xF5 0xE1 = Except.ok st' →
        st'.reg_ext = 0 ∧ st'.index_ext = 0 ∧ st'.b_ext = 0) ∧
      (∀ st', evex_update Mode.Protected PrefixState.init 0xF5 0xE1 0xD4 = Except.ok st' →
        st'.reg_ext = PrefixState.init.reg_ext ∧
        st'.index_ext = PrefixState.init.index_ext ∧
        st'.b_ext = PrefixState.init.b_ext)) :=
  ⟨by decide,
   (c10_vex_bytes_always_prefixes Mode.Protected PrefixState.init 0xF5 0xE1 0xD4
      []).2.2.2.2 (by decide)⟩

